import Mathlib

/-!
Verification of the reference-validation core of the repository
(CrossRef checking service, Semantic Scholar / OpenAlex adapters and the
fallback orchestrator).

The TypeScript source is shallowly embedded: every provider interaction is
made explicit by passing the provider's (already parsed) HTTP outcome as an
argument, and the string heuristics of the source (normalisation,
Levenshtein similarity, token scans) are reproduced over `List Char` /
`String` in the ASCII range that the source's regexes (`\w`, `[A-Z]`, ...)
operate on.  JS `number` values arising in score arithmetic are modelled by
`Rat` (all the arithmetic performed by the source on them — sums, halving,
quartering — is exact in binary floating point, so the rational model agrees
with the JS evaluation); integer-valued intermediate scores are kept in
`Nat` / `Int` as appropriate.
-/

namespace RefVal

set_option maxRecDepth 100000

/-! ## JS character classes and elementary string operations -/

/-- Characters matched by the JS whitespace class used in `trim`, `\s` and
`split` separators (ASCII part). -/
def jsIsSpace (c : Char) : Bool :=
  c = ' ' || c = '\t' || c = '\n' || c = '\r' || c = '\x0b' || c = '\x0c'

/-- Characters matched by the JS `\w` class: `[A-Za-z0-9_]`. -/
def isWordChar (c : Char) : Bool :=
  c.isAlphanum || c = '_'

/-- ASCII upper-case letter test, the JS `/^[A-Z]/` class. -/
def isAsciiUpper (c : Char) : Bool :=
  'A' ≤ c && c ≤ 'Z'

/-- ASCII lower-casing of one character (`String.prototype.toLowerCase` on
the ASCII range). -/
def asciiLower (c : Char) : Char :=
  if isAsciiUpper c then Char.ofNat (c.toNat + 32) else c

/-- JS `s.toLowerCase()` (ASCII model). -/
def lowerStr (s : String) : String :=
  String.mk (s.data.map asciiLower)

/-- JS `s.toLowerCase().replace(/[^\w\s]/g, '')`: lower-case, then drop every
character that is neither a word character nor whitespace.  This is the
cleaning step of `calculateSimilarity` (which does not trim). -/
def cleanStr (s : String) : String :=
  String.mk ((s.data.map asciiLower).filter (fun c => isWordChar c || jsIsSpace c))

/-- JS `s.trim()`. -/
def jsTrim (s : String) : String :=
  String.mk (((s.data.dropWhile jsIsSpace).reverse.dropWhile jsIsSpace).reverse)

/-- The `normalize` helper of `checkReference`:
`str.toLowerCase().replace(/[^\w\s]/g, '').trim()`. -/
def normalize (s : String) : String :=
  jsTrim (cleanStr s)

/-- Substring occurrence over character lists (`needle` occurs in `hay`). -/
def containsList (needle : List Char) : List Char → Bool
  | [] => needle.isEmpty
  | c :: t => needle.isPrefixOf (c :: t) || containsList needle t

/-- JS `hay.includes(needle)`. -/
def strIncludes (hay needle : String) : Bool :=
  containsList needle.data hay.data

/-- Worker for `jsSplitRuns`; `inRun` records whether the previous character
belonged to a separator run (so that a run splits only once, as with a
`[...]+` regex). -/
def splitRunsGo (p : Char → Bool) : List Char → List Char → Bool → List String
  | [], acc, inRun => if inRun then [""] else [String.mk acc.reverse]
  | c :: cs, acc, inRun =>
      if p c then
        if inRun then splitRunsGo p cs [] true
        else String.mk acc.reverse :: splitRunsGo p cs [] true
      else splitRunsGo p cs (c :: acc) false

/-- JS `s.split(regex)` where the regex is a character class followed by `+`
(such as `/[\s,.:;()]+/` or `/\s+/`): split at each maximal nonempty run of
separator characters, keeping the empty pieces that JS produces at the two
ends of the string. -/
def jsSplitRuns (p : Char → Bool) (s : String) : List String :=
  splitRunsGo p s.data [] false

/-- Worker for `jsSplitStr` (fuel = number of characters still to scan). -/
def splitStrGo (sep : List Char) : Nat → List Char → List Char → List String
  | 0, rest, acc => [String.mk (acc.reverse ++ rest)]
  | _ + 1, [], acc => [String.mk acc.reverse]
  | fuel + 1, c :: cs, acc =>
      if sep.isPrefixOf (c :: cs) then
        String.mk acc.reverse :: splitStrGo sep fuel ((c :: cs).drop sep.length) []
      else splitStrGo sep fuel cs (c :: acc)

/-- JS `s.split(sep)` for a literal nonempty separator string such as
`', '` or `' '`. -/
def jsSplitStr (sep : String) (s : String) : List String :=
  splitStrGo sep.data s.data.length s.data []

/-- Worker for `jsDedup`. -/
def jsDedupGo (seen : List String) : List String → List String
  | [] => []
  | x :: xs => if seen.contains x then jsDedupGo seen xs else x :: jsDedupGo (x :: seen) xs

/-- JS `[...new Set(list)]`: remove duplicates keeping first occurrences. -/
def jsDedup (l : List String) : List String :=
  jsDedupGo [] l

/-- Numeric value of a list of decimal digit characters. -/
def digitsVal (ds : List Char) : Nat :=
  ds.foldl (fun n c => n * 10 + (c.toNat - 48)) 0

/-- Numeric value of a list of hexadecimal digit characters. -/
def hexDigitVal (c : Char) : Nat :=
  if c.isDigit then c.toNat - 48
  else if 'a' ≤ c && c ≤ 'f' then c.toNat - 87
  else c.toNat - 55

/-- Hexadecimal digit test. -/
def isHexDigit (c : Char) : Bool :=
  c.isDigit || ('a' ≤ c && c ≤ 'f') || ('A' ≤ c && c ≤ 'F')

/-- JS `parseInt(s)` (radix 10, with the implicit `0x` hexadecimal prefix);
`none` models `NaN`. -/
def jsParseInt (s : String) : Option Int :=
  let t := s.data.dropWhile jsIsSpace
  let sign : Int := match t with | '-' :: _ => -1 | _ => 1
  let t2 := match t with | '-' :: r => r | '+' :: r => r | r => r
  match t2 with
  | '0' :: 'x' :: r =>
      let hs := r.takeWhile isHexDigit
      if hs.isEmpty then none
      else some (sign * (hs.foldl (fun n c => n * 16 + hexDigitVal c) 0 : Nat))
  | '0' :: 'X' :: r =>
      let hs := r.takeWhile isHexDigit
      if hs.isEmpty then none
      else some (sign * (hs.foldl (fun n c => n * 16 + hexDigitVal c) 0 : Nat))
  | _ =>
      let ds := t2.takeWhile Char.isDigit
      if ds.isEmpty then none else some (sign * (digitsVal ds : Int))

/-- JS `Math.abs(x - y) === k` where `x`, `y` may be `NaN` (then `false`). -/
def jsAbsDiffEq (a b : Option Int) (k : Nat) : Bool :=
  match a, b with
  | some x, some y => (x - y).natAbs == k
  | _, _ => false

/-- JS `Math.abs(x - y) <= k` where `x`, `y` may be `NaN` (then `false`). -/
def jsAbsDiffLe (a b : Option Int) (k : Nat) : Bool :=
  match a, b with
  | some x, some y => (x - y).natAbs ≤ k
  | _, _ => false

/-- JS `Math.abs(x - y)` for two already-parsed numbers. -/
def jsAbsDiff (x y : Int) : Nat :=
  (x - y).natAbs

/-- Rounding `num / den` to the nearest natural number, halves up: this is
JS `Math.round` on a nonnegative rational. -/
def natRoundDiv (num den : Nat) : Nat :=
  (2 * num + den) / (2 * den)

/-- JS `Math.round` on an exact rational argument (halves toward `+∞`). -/
def jsRound (x : Rat) : Int :=
  ⌊x + 1 / 2⌋

/-- JS truthiness of an optional string field (`undefined` and `""` are
falsy). -/
def truthy : Option String → Bool
  | some s => !s.isEmpty
  | none => false

/-- JS reading of a possibly missing string field in a string position
(`undefined` renders as `""` after `|| ""` or inside `Array.join`). -/
def jsStr (o : Option String) : String :=
  o.getD ""

/-- JS `o || fb` for a string-valued `o`. -/
def jsOrStr (o : Option String) (fb : String) : String :=
  match o with
  | some s => if s.isEmpty then fb else s
  | none => fb

/-! ## Levenshtein distance (`levenshteinDistance`) and similarity

The source fills the classic dynamic-programming matrix row by row
(`matrix[i][j]` = distance between the first `j` characters of `a` and the
first `i` characters of `b`) and returns `matrix[b.length][a.length]`.
`levRowGo` produces the entries `j ≥ 1` of row `i` from row `i-1`, carrying
the diagonal (`matrix[i-1][j-1]`) and left (`matrix[i][j-1]`) cells exactly
as the source's inner loop reads them. -/

/-- Inner loop of the Levenshtein matrix fill: one row, columns `j ≥ 1`. -/
def levRowGo (bc : Char) : List Char → List Nat → Nat → Nat → List Nat
  | [], _, _, _ => []
  | _ :: _, [], _, _ => []
  | ac :: as, up :: prevRest, diag, left =>
      let cur := if bc = ac then diag else min (diag + 1) (min (left + 1) (up + 1))
      cur :: levRowGo bc as prevRest up cur

/-- Row `i` of the matrix from row `i-1`; the first entry is
`matrix[i][0] = i`. -/
def levNextRow (bc : Char) (a : List Char) (prev : List Nat) (i : Nat) : List Nat :=
  match prev with
  | [] => [i]
  | d :: rest => i :: levRowGo bc a rest d i

/-- The `levenshteinDistance` function of the source: row 0 is
`0, 1, ..., a.length`, each character of `b` produces the next row, and the
result is the last cell of the last row. -/
def levenshteinDistance (a b : List Char) : Nat :=
  let row0 := List.range (a.length + 1)
  (b.enum.foldl (fun row p => levNextRow p.2 a row (p.1 + 1)) row0).getLastD 0

/-- Reference (non-DP) recursive definition of Levenshtein distance, used
only in proofs about `levenshteinDistance`. -/
def levRec : List Char → List Char → Nat
  | [], ys => ys.length
  | x :: xs, [] => (x :: xs).length
  | x :: xs, y :: ys =>
      if x = y then levRec xs ys
      else 1 + min (levRec xs ys) (min (levRec (x :: xs) ys) (levRec xs (y :: ys)))
termination_by xs ys => xs.length + ys.length

/-- The `calculateSimilarity` function of the source.  `Math.max(0, ...)`
combined with `Math.round((1 - distance/maxLength) * 100)` is realised by
truncated natural subtraction followed by half-up rounding: the two agree
for every value of `distance` (when `distance > maxLength` both give 0). -/
def calculateSimilarity (str1 str2 : String) : Nat :=
  if str1.isEmpty || str2.isEmpty then 0
  else
    let clean1 := cleanStr str1
    let clean2 := cleanStr str2
    if clean1 = clean2 then 100
    else
      let distance := levenshteinDistance clean1.data clean2.data
      let maxLength := max clean1.length clean2.length
      if maxLength = 0 then 0
      else natRoundDiv ((maxLength - distance) * 100) maxLength

/-! ## LaTeX accent decoding (`decodeLatex`), name matching, venues, years -/

/-- Deterministic match of one accent pattern
`\{?\\<marker>\{?(<class>)\}?\}?` at the head of `s` (for the acute form the
marker itself is optional, as in the source's `\\'?`).  Returns the captured
letter and the remainder after the match. -/
def accentMatch (markerOpt : Bool) (marker : Char) (cls : Char → Bool) (s : List Char) :
    Option (Char × List Char) :=
  let s1 := match s with | '{' :: r => r | r => r
  match s1 with
  | '\\' :: s2 =>
      let s3opt : Option (List Char) :=
        match s2 with
        | c :: r => if c = marker then some r else if markerOpt then some s2 else none
        | [] => if markerOpt then some [] else none
      match s3opt with
      | none => none
      | some s3 =>
          let s4 := match s3 with | '{' :: r => r | r => r
          match s4 with
          | c :: s5 =>
              if cls c then
                let s6 := match s5 with | '}' :: r => r | r => r
                let s7 := match s6 with | '}' :: r => r | r => r
                some (c, s7)
              else none
          | [] => none
  | _ => none

/-- Global replacement scan for one accent pattern (fuel = characters left;
each step consumes at least one character). -/
def accentPassGo (markerOpt : Bool) (marker : Char) (cls : Char → Bool) :
    Nat → List Char → List Char
  | 0, s => s
  | fuel + 1, s =>
      match accentMatch markerOpt marker cls s with
      | some (c, rest) => c :: accentPassGo markerOpt marker cls fuel rest
      | none =>
          match s with
          | [] => []
          | c :: cs => c :: accentPassGo markerOpt marker cls fuel cs

/-- One `replace(/pattern/g, '$1')` pass of `decodeLatex`. -/
def accentPass (markerOpt : Bool) (marker : Char) (cls : Char → Bool) (s : List Char) :
    List Char :=
  accentPassGo markerOpt marker cls s.length s

/-- Vowel class `[aeiouAEIOU]` of the accent patterns. -/
def isVowelChar (c : Char) : Bool :=
  ['a', 'e', 'i', 'o', 'u', 'A', 'E', 'I', 'O', 'U'].contains c

/-- The `decodeLatex` function of the source: the seven accent-replacement
passes, removal of remaining braces, and a trim. -/
def decodeLatex (text : String) : String :=
  let s1 := accentPass true '\'' isVowelChar text.data
  let s2 := accentPass false '`' isVowelChar s1
  let s3 := accentPass false '^' isVowelChar s2
  let s4 := accentPass false '"' isVowelChar s3
  let s5 := accentPass false 'v' Char.isAlpha s4
  let s6 := accentPass false '~' (fun c => c = 'n' || c = 'N') s5
  let s7 := accentPass false 'c' (fun c => c = 'c' || c = 'C') s6
  jsTrim (String.mk (s7.filter (fun c => c ≠ '{' && c ≠ '}')))

/-- The `firstLetterMatches` function of the source: case-insensitive
comparison of the first alphabetic characters after LaTeX decoding. -/
def firstLetterMatches (name1 name2 : String) : Bool :=
  let clean1 := (decodeLatex name1).data.filter Char.isAlpha
  let clean2 := (decodeLatex name2).data.filter Char.isAlpha
  match clean1, clean2 with
  | c1 :: _, c2 :: _ => asciiLower c1 == asciiLower c2
  | _, _ => false

/-- The `PREPRINT_VENUES` list of the source. -/
def PREPRINT_VENUES : List String :=
  ["arxiv", "biorxiv", "medrxiv", "chemrxiv", "ssrn", "preprints",
   "research square", "osf preprints", "techrxiv", "eartharxiv",
   "engrxiv", "socarxiv", "psyarxiv", "edarxiv", "hal", "repec",
   "nber working paper", "working paper"]

/-- The `isPreprint` function of the source. -/
def isPreprint (venue : String) : Bool :=
  if venue.isEmpty then false
  else PREPRINT_VENUES.any (fun p => strIncludes (lowerStr venue) p)

/-- Match of `\b(19|20)\d{2}\b` at the head of `s`, given the previous
character (for the left word boundary).  Returns the matched 4-digit token,
the rest, and the last consumed character. -/
def yearMatchAt (prev : Option Char) (s : List Char) : Option (String × List Char × Char) :=
  match s with
  | c1 :: c2 :: c3 :: c4 :: rest =>
      if ((c1 = '1' && c2 = '9') || (c1 = '2' && c2 = '0')) && c3.isDigit && c4.isDigit
          && (match prev with | some p => !isWordChar p | none => true)
          && (match rest with | r :: _ => !isWordChar r | [] => true) then
        some (String.mk [c1, c2, c3, c4], rest, c4)
      else none
  | _ => none

/-- Global scan for `query.match(/\b(19|20)\d{2}\b/g)` (fuel decreases by
one, consumption is 1 or 4 characters per step). -/
def yearScanGo : Nat → Option Char → List Char → List String
  | 0, _, _ => []
  | fuel + 1, prev, s =>
      match yearMatchAt prev s with
      | some (tok, rest, lastc) => tok :: yearScanGo fuel (some lastc) rest
      | none =>
          match s with
          | [] => []
          | c :: cs => yearScanGo fuel (some c) cs

/-- JS `query.match(/\b(19|20)\d{2}\b/g) || []`: the list of four-digit
years found in the query. -/
def yearsInQuery (query : String) : List String :=
  yearScanGo query.data.length none query.data

/-- Worker scanning for `split(/[,&]|\sand\s/i)` (the strict author-list
separator of the structured mode). -/
def splitAuthorsSepGo : Nat → List Char → List Char → List String
  | 0, s, acc => [String.mk (acc.reverse ++ s)]
  | _ + 1, [], acc => [String.mk acc.reverse]
  | fuel + 1, c :: cs, acc =>
      if c = ',' || c = '&' then
        String.mk acc.reverse :: splitAuthorsSepGo fuel cs []
      else if jsIsSpace c then
        match cs with
        | a :: n :: d :: w2 :: rest =>
            if (asciiLower a == 'a') && (asciiLower n == 'n') && (asciiLower d == 'd')
                && jsIsSpace w2 then
              String.mk acc.reverse :: splitAuthorsSepGo fuel rest []
            else splitAuthorsSepGo fuel cs (c :: acc)
        | _ => splitAuthorsSepGo fuel cs (c :: acc)
      else splitAuthorsSepGo fuel cs (c :: acc)

/-- JS `s.split(/[,&]|\sand\s/i)`. -/
def splitAuthorsSep (s : String) : List String :=
  splitAuthorsSepGo s.data.length s.data []

/-- Worker scanning for `split(/[,&]|and/i)` (the looser separator used by
the fallback orchestrator; it also splits inside words containing `and`). -/
def splitAuthorsLooseGo : Nat → List Char → List Char → List String
  | 0, s, acc => [String.mk (acc.reverse ++ s)]
  | _ + 1, [], acc => [String.mk acc.reverse]
  | fuel + 1, c :: cs, acc =>
      if c = ',' || c = '&' then
        String.mk acc.reverse :: splitAuthorsLooseGo fuel cs []
      else if asciiLower c == 'a' then
        match cs with
        | n :: d :: rest =>
            if (asciiLower n == 'n') && (asciiLower d == 'd') then
              String.mk acc.reverse :: splitAuthorsLooseGo fuel rest []
            else splitAuthorsLooseGo fuel cs (c :: acc)
        | _ => splitAuthorsLooseGo fuel cs (c :: acc)
      else splitAuthorsLooseGo fuel cs (c :: acc)

/-- JS `s.split(/[,&]|and/i)`. -/
def splitAuthorsLoose (s : String) : List String :=
  splitAuthorsLooseGo s.data.length s.data []

/-! ## CrossRef data model (`SearchService`) -/

/-- One entry of `item.author` in a CrossRef work record. -/
structure CRAuthor where
  family : Option String
  given : Option String
deriving DecidableEq, Repr

/-- A CrossRef work record, restricted to the fields the source reads
(`title[0]`, `author`, `published['date-parts']`, `container-title[0]`,
`URL`, `DOI`, `score`). -/
structure CrossRefItem where
  title : List String
  author : List CRAuthor
  published : List (List Nat)
  containerTitle : List String
  url : Option String
  doi : Option String
  score : Option Rat
deriving DecidableEq, Repr

/-- The `ExpectedMetadata` interface of the source (all fields optional). -/
structure ExpectedMetadata where
  title : Option String := none
  authors : Option String := none
  journal : Option String := none
  year : Option String := none
deriving DecidableEq, Repr

/-- The `source` tag of a `CheckResult`. -/
inductive ResultSource
  | crossRef | semanticScholar | openAlex | notFound
deriving DecidableEq, Repr

/-- The `fallbackSource` tag of a `CheckResult`. -/
inductive FallbackSource
  | semanticScholar | openAlex
deriving DecidableEq, Repr

/-- The `CheckResult` interface of the source; `exists_` models the `exists`
field (a reserved word in Lean).  Absent optional fields are `none`. -/
structure CheckResult where
  exists_ : Bool
  title : Option String := none
  authors : Option String := none
  year : Option String := none
  journal : Option String := none
  url : Option String := none
  doi : Option String := none
  score : Option Rat := none
  apa : Option String := none
  bibtex : Option String := none
  correctedApa : Option String := none
  correctedBibtex : Option String := none
  matchConfidence : Rat
  titleMatchScore : Rat
  authorMatchScore : Rat
  journalMatchScore : Rat
  issues : List String
  source : ResultSource
  fallbackSource : Option FallbackSource := none
deriving DecidableEq, Repr

/-- JS template-literal rendering of a possibly `undefined` string field
(`undefined` interpolates as the text `undefined`). -/
def jsTemplateStr (o : Option String) : String :=
  o.getD "undefined"

/-- JS `item.title?.[0] || ""` (the `resultTitle` of `checkReference`). -/
def CrossRefItem.resultTitle (item : CrossRefItem) : String :=
  jsStr item.title.head?

/-- JS `item.published?.['date-parts']?.[0]?.[0]` as a number. -/
def CrossRefItem.resultYearNat (item : CrossRefItem) : Option Nat :=
  item.published.head?.bind List.head?

/-- JS `item.published?.['date-parts']?.[0]?.[0]?.toString() || ""` (the
`resultYear` of `checkReference`). -/
def CrossRefItem.resultYear (item : CrossRefItem) : String :=
  match item.resultYearNat with
  | some n => toString n
  | none => ""

/-- JS `item['container-title']?.[0] || ""` (the `resultJournal`). -/
def CrossRefItem.resultJournal (item : CrossRefItem) : String :=
  jsStr item.containerTitle.head?

/-- JS `(item.author || []).map(a => a.family).join(", ")` (the
`resultAuthors`; a missing family renders as the empty string in `join`). -/
def CrossRefItem.resultAuthors (item : CrossRefItem) : String :=
  String.intercalate ", " (item.author.map (fun a => jsStr a.family))

/-- The `realAuthorFamilies` list of `checkReference`: normalised family
names of length above 2. -/
def realAuthorFamilies (item : CrossRefItem) : List String :=
  (item.author.map (fun a => normalize (jsStr a.family))).filter (fun n => 2 < n.length)

/-- The `realAuthorGivens` list of `checkReference`: trimmed nonempty given
names. -/
def realAuthorGivens (item : CrossRefItem) : List String :=
  (item.author.map (fun a => jsTrim (jsStr a.given))).filter (fun n => 0 < n.length)

/-- JS `expected?.title`. -/
def expTitle : Option ExpectedMetadata → Option String
  | some e => e.title
  | none => none

/-- JS `expected?.authors`. -/
def expAuthors : Option ExpectedMetadata → Option String
  | some e => e.authors
  | none => none

/-- JS `expected?.journal`. -/
def expJournal : Option ExpectedMetadata → Option String
  | some e => e.journal
  | none => none

/-- JS `expected?.year`. -/
def expYear : Option ExpectedMetadata → Option String
  | some e => e.year
  | none => none

/-! ## Best-candidate selection in `checkReference` -/

/-- Title score of one candidate, shared between the selection loop and the
title-similarity check (the two code sections are identical). -/
def titleScoreFor (query nQuery : String) (expected : Option ExpectedMetadata)
    (iTitle : String) : Nat :=
  if truthy (expTitle expected) then calculateSimilarity (jsStr (expTitle expected)) iTitle
  else if strIncludes nQuery (normalize iTitle) then 100
  else calculateSimilarity query iTitle

/-- The combined selection score of one candidate: `3 × titleScore` plus the
year bonus (+40 exact / +10 for ±1 against `expected.year`, or +30 for a
query-embedded year in free-text mode) plus the journal bonus
`round(jSim * 0.2)`. -/
def combinedScoreFor (query nQuery : String) (queryYears : List String)
    (expected : Option ExpectedMetadata) (item : CrossRefItem) : Int :=
  let iTitle := item.resultTitle
  let iYear := item.resultYear
  let iJournal := item.resultJournal
  let titleScore := titleScoreFor query nQuery expected iTitle
  let base : Int := (titleScore : Int) * 3
  let withYear : Int :=
    if truthy (expYear expected) && !iYear.isEmpty then
      if jsStr (expYear expected) = iYear then base + 40
      else if jsAbsDiffEq (jsParseInt (jsStr (expYear expected))) (jsParseInt iYear) 1 then
        base + 10
      else base
    else if !(truthy (expTitle expected)) then
      if 0 < queryYears.length ∧ !iYear.isEmpty ∧ queryYears.contains iYear then base + 30
      else base
    else base
  if truthy (expJournal expected) && !iJournal.isEmpty then
    withYear + (natRoundDiv (calculateSimilarity (jsStr (expJournal expected)) iJournal) 5 : Nat)
  else withYear

/-- The best-match selection loop of `checkReference` (starting from
`items[0]` and score `-1`, keeping the first strictly greater combined
score). -/
def selectBestItem (query : String) (expected : Option ExpectedMetadata)
    (first : CrossRefItem) (rest : List CrossRefItem) : CrossRefItem :=
  let nQuery := normalize query
  let queryYears := yearsInQuery query
  ((first :: rest).foldl
    (fun best it =>
      let c := combinedScoreFor query nQuery queryYears expected it
      if best.2 < c then (it, c) else best)
    (first, (-1 : Int))).1

/-! ## Mode scorers of `checkReference` -/

/-- Result of one scoring mode: the (possibly raised) title score, the
author/journal sub-scores, the overall score and the issue strings pushed by
the mode, in push order. -/
structure ModeScores where
  titleSim : Nat
  authorSim : Int
  journalSim : Nat
  overall : Rat
  issues : List String
deriving DecidableEq, Repr

/-- The separator class `[\s,.:;()]` of the fake-author tokenizer. -/
def fakeSepChar (c : Char) : Bool :=
  jsIsSpace c || c = ',' || c = '.' || c = ':' || c = ';' || c = '(' || c = ')'

/-- JS `query.split(/[\s,.:;()]+/)`. -/
def queryTokens (query : String) : List String :=
  jsSplitRuns fakeSepChar query

/-- The `stopWords` list of the fake-author scan. -/
def stopWords : List String :=
  ["vol", "issue", "pp", "doi", "http", "https", "org", "com", "www"]

/-- JS `/^[A-Z]/.test(token)`. -/
def isCapToken (token : String) : Bool :=
  match token.data with
  | c :: _ => isAsciiUpper c
  | [] => false

/-- One iteration of the fake-author loop: `true` when the token survives
every `continue` of the source and is pushed to `potentialFakeAuthors`. -/
def isFakeToken (item : CrossRefItem) (token : String) : Bool :=
  let nToken := normalize token
  if nToken.length < 3 then false
  else if !isCapToken token then false
  else if stopWords.contains nToken then false
  else if strIncludes (normalize item.resultTitle) nToken then false
  else if !item.resultJournal.isEmpty && strIncludes (normalize item.resultJournal) nToken then
    false
  else if !item.resultYear.isEmpty && strIncludes item.resultYear token then false
  else if (realAuthorFamilies item).any
      (fun real => strIncludes real nToken || strIncludes nToken real) then false
  else if (realAuthorGivens item).any (fun given => firstLetterMatches token given) then false
  else true

/-- JS `[...new Set(potentialFakeAuthors)]`: the unique fake-author tokens
of the query, in first-occurrence order. -/
def uniqueFakeTokens (query : String) (item : CrossRefItem) : List String :=
  jsDedup ((queryTokens query).filter (isFakeToken item))

/-- The free-text `authorSim` before the fake-author penalty, with the
`Author Mismatch` issue when no real author occurs in the query and the
title matches well. -/
def freeAuthorPair (nQuery : String) (item : CrossRefItem) (titleSim : Nat) :
    Int × List String :=
  let fam := realAuthorFamilies item
  let found := fam.filter (fun a => strIncludes nQuery a)
  if found.length = fam.length then (100, [])
  else if 0 < found.length then ((natRoundDiv (found.length * 100) fam.length : Nat), [])
  else (0, if 80 < titleSim then ["Author Mismatch: none of the real authors found"] else [])

/-- The fake-author penalty step: when between 1 and 5 unique fake tokens
were found, the author score drops by 10 per token and the issue naming
them is pushed. -/
def freeFakePair (query : String) (item : CrossRefItem) (base : Int) : Int × List String :=
  let uniqueFakes := uniqueFakeTokens query item
  if 0 < uniqueFakes.length ∧ uniqueFakes.length ≤ 5 then
    (base - 10 * uniqueFakes.length,
      ["Possible Extra/Fake Authors: " ++ String.intercalate ", " uniqueFakes])
  else (base, [])

/-- The free-text journal section: 100 when a significant word (length at
least 4) of the candidate journal occurs in the query, 60 for an unmatched
preprint venue, 0 otherwise, and 50 when CrossRef has no journal. -/
def freeJournalPair (nQuery : String) (item : CrossRefItem) (titleSim : Nat) :
    Nat × List String :=
  let rj := item.resultJournal
  if !rj.isEmpty && decide (3 < rj.length) then
    let journalWords := (jsSplitRuns jsIsSpace (normalize rj)).filter (fun w => 4 ≤ w.length)
    if journalWords.any (fun w => strIncludes nQuery w) then (100, [])
    else if isPreprint rj then
      (60, if 70 < titleSim then ["Note: CrossRef returned preprint venue \"" ++ rj ++ "\""]
           else [])
    else
      (0, if 70 < titleSim then ["Journal Mismatch: actual is \"" ++ rj ++ "\""] else [])
  else (50, [])

/-- The free-text year section: the penalty it subtracts from the (still
zero) running overall score, and the issue it pushes. -/
def freeYearPair (query : String) (item : CrossRefItem) (titleSim : Nat) :
    Rat × List String :=
  let ry := item.resultYear
  let rj := item.resultJournal
  let queryYears := yearsInQuery query
  if !ry.isEmpty && decide (ry.length = 4) then
    if queryYears.contains ry then (0, [])
    else if 0 < queryYears.length then
      let y0 := queryYears.headD ""
      let pe := jsParseInt y0
      let pr := jsParseInt ry
      if jsAbsDiffLe pe pr 2 && isPreprint rj then
        (5, ["Note: year " ++ y0 ++ " vs " ++ ry ++ " (preprint/published version difference)"])
      else if jsAbsDiffEq pe pr 1 && decide (80 < titleSim) then
        (10, ["Year differs by 1: you wrote " ++ y0 ++ ", actual is " ++ ry
              ++ " (possible version difference)"])
      else (25, ["Year Mismatch: you wrote " ++ y0 ++ ", actual is " ++ ry])
    else (0, [])
  else (0, [])

/-- The overall-score computation of the free-text mode (source lines after
the year section): it is a fresh assignment from the title and author
scores, so the year penalty already subtracted from the zero-initialised
`overallSim` is discarded (see the C3 analysis); the journal penalty and
the floor at 0 follow. -/
def freeOverall (titleSim : Nat) (authorSim : Int) (journalSim : Nat)
    (yearPenalty : Rat) : Rat :=
  let _overallDead : Rat := 0 - yearPenalty
  let overall1 : Rat :=
    if 80 < titleSim then
      if 90 ≤ authorSim then (titleSim : Rat)
      else (titleSim : Rat) - (100 - (authorSim : Rat)) * (1 / 2)
    else ((titleSim : Rat) + (authorSim : Rat)) / 2
  let overall2 : Rat := if journalSim = 0 ∧ 60 < titleSim then overall1 - 15 else overall1
  max 0 overall2

/-- The free-text title boost: 95 when the normalised candidate title is
contained in the normalised query and the incoming score was below 95. -/
def freeTitleSim (query : String) (item : CrossRefItem) (titleSim0 : Nat) : Nat :=
  if titleSim0 < 95 && strIncludes (normalize query) (normalize item.resultTitle) then 95
  else titleSim0

/-- Free-text (Quick Check) validation of `checkReference`. -/
def freeTextScores (query : String) (item : CrossRefItem) (titleSim0 : Nat) : ModeScores :=
  let titleSim := freeTitleSim query item titleSim0
  let authorPair := freeAuthorPair (normalize query) item titleSim
  let fakePair := freeFakePair query item authorPair.1
  let journalPair := freeJournalPair (normalize query) item titleSim
  let yearPair := freeYearPair query item titleSim
  { titleSim := titleSim, authorSim := fakePair.1, journalSim := journalPair.1,
    overall := freeOverall titleSim fakePair.1 journalPair.1 yearPair.1,
    issues := authorPair.2 ++ fakePair.2 ++ journalPair.2 ++ yearPair.2 }

/-- The structured-mode author base score, before the extra-author
penalty: containment ratio of candidate families in the expected author
string, with a whole-string similarity fallback when none is contained. -/
def structuredAuthorBase (e : ExpectedMetadata) (item : CrossRefItem) : Int :=
  let fam := realAuthorFamilies item
  let found := fam.filter (fun a => strIncludes (normalize (jsStr e.authors)) a)
  if 0 < found.length then
    (min 100 (natRoundDiv (found.length * 100) fam.length) : Nat)
  else (calculateSimilarity (jsStr e.authors) item.resultAuthors : Nat)

/-- The extra/fabricated names found in the expected author list: entries
matching no candidate family (substring in either direction) and no
candidate given name by first letter. -/
def structuredExtraAuthors (e : ExpectedMetadata) (item : CrossRefItem) : List String :=
  (((splitAuthorsSep (decodeLatex (jsStr e.authors))).map jsTrim).filter
      (fun s => 2 < s.length)).filter
    (fun expAuth =>
      !((realAuthorFamilies item).any (fun real =>
          strIncludes real (normalize expAuth) || strIncludes (normalize expAuth) real))
        && !((realAuthorGivens item).any (fun given => firstLetterMatches expAuth given)))

/-- The structured-mode author section (score and issue). -/
def structuredAuthorPair (e : ExpectedMetadata) (item : CrossRefItem) : Int × List String :=
  if truthy e.authors then
    let extra := structuredExtraAuthors e item
    if 0 < extra.length then
      (structuredAuthorBase e item - 20 * extra.length,
        ["Extra/Fake Authors detected: " ++ String.intercalate ", " extra])
    else (structuredAuthorBase e item, [])
  else (100, [])

/-- The structured-mode journal section (preprint-aware). -/
def structuredJournalPair (e : ExpectedMetadata) (item : CrossRefItem) (titleSim : Nat) :
    Nat × List String :=
  let rj := item.resultJournal
  if truthy e.journal then
    let js0 := calculateSimilarity (jsStr e.journal) rj
    if js0 < 50 then
      if (isPreprint (jsStr e.journal) ≠ isPreprint rj) ∧ 70 < titleSim then
        (70, ["Version difference: \"" ++ jsStr e.journal ++ "\" vs \"" ++ rj
              ++ "\" (preprint/published)"])
      else (js0, [])
    else (js0, [])
  else (100, [])

/-- The structured-mode year section (preprint-aware). -/
def structuredYearPair (e : ExpectedMetadata) (item : CrossRefItem) (titleSim : Nat) :
    Nat × List String :=
  let ry := item.resultYear
  let rj := item.resultJournal
  if truthy e.year && !ry.isEmpty then
    let ey := jsStr e.year
    if ey = ry then (100, [])
    else
      let pe := jsParseInt ey
      let pr := jsParseInt ry
      let diffStr := match pe, pr with
        | some x, some y => toString ((x - y).natAbs)
        | _, _ => "NaN"
      if jsAbsDiffLe pe pr 2 && (isPreprint (jsStr e.journal) || isPreprint rj) then
        (85, ["Year differs by " ++ diffStr ++ " year(s): expected " ++ ey ++ ", found "
              ++ ry ++ " (likely preprint/published version)"])
      else if jsAbsDiffEq pe pr 1 && decide (80 < titleSim) then
        (75, ["Year differs by 1: expected " ++ ey ++ ", found " ++ ry
              ++ " (possible version difference)"])
      else (0, ["Year Mismatch: expected " ++ ey ++ ", found " ++ ry])
  else (100, [])

/-- Structured (Batch Mode) validation of `checkReference`. -/
def structuredScores (expected : ExpectedMetadata) (item : CrossRefItem)
    (titleSim : Nat) : ModeScores :=
  let authorPair := structuredAuthorPair expected item
  let journalPair := structuredJournalPair expected item titleSim
  let yearPair := structuredYearPair expected item titleSim
  { titleSim := titleSim, authorSim := authorPair.1, journalSim := journalPair.1,
    overall := ((titleSim : Rat) + (authorPair.1 : Rat) + (journalPair.1 : Rat)
      + (yearPair.1 : Rat)) / 4,
    issues := authorPair.2 ++ journalPair.2 ++ yearPair.2 }

/-! ## CrossRef citation formatters -/

/-- The year string used by the CrossRef formatters:
`item.published?.['date-parts']?.[0]?.[0] || 'n.d.'` (a year 0 is falsy). -/
def CrossRefItem.yearDisplay (item : CrossRefItem) : String :=
  match item.resultYearNat with
  | some 0 => "n.d."
  | some n => toString n
  | none => "n.d."

/-- One author entry of `formatAPA`:
`` `${a.family}, ${a.given ? a.given[0] + '.' : ''}` ``. -/
def formatAPAAuthor (a : CRAuthor) : String :=
  jsTemplateStr a.family ++ ", "
    ++ (match a.given with
        | some g => match g.data with
            | c :: _ => String.mk [c] ++ "."
            | [] => ""
        | none => "")

/-- The `formatAPA` function of the source (CrossRef items); authors are
joined with `", "` only — there is no ampersand logic here. -/
def formatAPA (item : CrossRefItem) : String :=
  let authors := String.intercalate ", " (item.author.map formatAPAAuthor)
  let year := item.yearDisplay
  let title := jsOrStr item.title.head? "Untitled"
  let journal := jsStr item.containerTitle.head?
  let doi := if truthy item.doi then "https://doi.org/" ++ jsStr item.doi
             else jsOrStr item.url ""
  let base := authors ++ " (" ++ year ++ "). " ++ title ++ "."
  let withJournal := if journal.isEmpty then base else base ++ " " ++ journal ++ "."
  if doi.isEmpty then withJournal else withJournal ++ " " ++ doi

/-- The `generateBibTeX` function of the source. -/
def generateBibTeX (item : CrossRefItem) : String :=
  let authors := String.intercalate " and " (item.author.map (fun a =>
    jsTemplateStr a.family
      ++ (match a.given with
          | some g => if g.isEmpty then "" else ", " ++ g
          | none => "")))
  let year := item.yearDisplay
  let title := jsOrStr item.title.head? "Untitled"
  let journal := jsStr item.containerTitle.head?
  let doi := jsStr item.doi
  let firstAuthor := jsOrStr (item.author.head?.bind CRAuthor.family) "Unknown"
  let cleanTitle := String.mk (((jsSplitStr " " title).headD "").data.filter Char.isAlphanum)
  let id := firstAuthor ++ year ++ cleanTitle
  let b1 := "@article\x7b" ++ id ++ ",\n  title=\x7b" ++ title ++ "\x7d,\n  author=\x7b"
    ++ authors ++ "\x7d,\n  year=\x7b" ++ year ++ "\x7d"
  let b2 := if journal.isEmpty then b1 else b1 ++ ",\n  journal=\x7b" ++ journal ++ "\x7d"
  let b3 := if doi.isEmpty then b2 else b2 ++ ",\n  doi=\x7b" ++ doi ++ "\x7d"
  b3 ++ "\n\x7d"

/-! ## `checkReference` -/

/-- The `MIN_TITLE_SIMILARITY` threshold of the source. -/
def MIN_TITLE_SIMILARITY : Nat := 55

/-- The not-found result returned on HTTP failure, thrown exceptions and
zero-item responses (all three sites build this same record). -/
def notFoundEmptyResult : CheckResult :=
  { exists_ := false, matchConfidence := 0, titleMatchScore := 0, authorMatchScore := 0,
    journalMatchScore := 0, issues := [], source := .notFound }

/-- The not-found result returned when the best candidate's title similarity
is below `MIN_TITLE_SIMILARITY`; it carries that similarity in
`titleMatchScore`. -/
def belowThresholdResult (titleSim : Nat) : CheckResult :=
  { exists_ := false, matchConfidence := 0, titleMatchScore := (titleSim : Rat),
    authorMatchScore := 0, journalMatchScore := 0,
    issues := ["Title not found — no sufficiently similar result in CrossRef"],
    source := .notFound }

/-- The final heuristics of `checkReference` (title/authors/journal
confidence penalties), the clamp of the confidence to `[0, 100]`, and the
assembly of the exists-true result record. -/
def finalizeResult (expected : Option ExpectedMetadata) (item : CrossRefItem)
    (m : ModeScores) : CheckResult :=
  let p1 : Rat × List String :=
    if m.titleSim < 70 then (m.overall - 20, ["Title mismatch"]) else (m.overall, [])
  let p2 : Rat × List String :=
    if truthy (expAuthors expected) && decide (m.authorSim < 50) then
      (p1.1 - 20, ["Authors mismatch"])
    else (p1.1, [])
  let p3 : Rat × List String :=
    if truthy (expJournal expected) && decide (m.journalSim < 70) then
      if m.journalSim < 40 then
        (p2.1 - 20, ["Journal mismatch: \"" ++ jsStr (expJournal expected) ++ "\" vs \""
          ++ item.resultJournal ++ "\""])
      else
        (p2.1 - 10, ["Journal differs: \"" ++ jsStr (expJournal expected) ++ "\" vs \""
          ++ item.resultJournal ++ "\""])
    else (p2.1, [])
  let c1 : Rat := if 100 < p3.1 then 100 else p3.1
  let c2 : Rat := if c1 < 0 then 0 else c1
  { exists_ := true,
    title := some item.resultTitle,
    authors := some item.resultAuthors,
    year := some item.resultYear,
    journal := some item.resultJournal,
    url := item.url,
    doi := item.doi,
    score := item.score,
    apa := some (formatAPA item),
    bibtex := some (generateBibTeX item),
    matchConfidence := c2,
    titleMatchScore := (m.titleSim : Rat),
    authorMatchScore := (m.authorSim : Rat),
    journalMatchScore := (m.journalSim : Rat),
    issues := m.issues ++ p1.2 ++ p2.2 ++ p3.2,
    source := .crossRef }

/-- The `checkReference` function of the source.  The provider interaction
is made explicit: `resp = none` models an HTTP failure (`!response.ok`) or a
thrown exception, `resp = some items` a parsed item list (possibly empty);
all three non-success shapes return `notFoundEmptyResult` exactly as the three
return sites of the source do. -/
def checkReference (query : String) (expected : Option ExpectedMetadata)
    (resp : Option (List CrossRefItem)) : CheckResult :=
  match resp with
  | none => notFoundEmptyResult
  | some [] => notFoundEmptyResult
  | some (first :: rest) =>
      let item := selectBestItem query expected first rest
      let titleSim := titleScoreFor query (normalize query) expected item.resultTitle
      if titleSim < MIN_TITLE_SIMILARITY then belowThresholdResult titleSim
      else
        let m := match expected with
          | some e =>
              if truthy e.title then structuredScores e item titleSim
              else freeTextScores query item titleSim
          | none => freeTextScores query item titleSim
        finalizeResult expected item m

/-! ## Provider fetch outcomes -/

/-- Outcome of one `fetch` as seen by an adapter: a thrown error
(network failure), a non-success HTTP status (including 429 rate limiting),
or a parsed successful body. -/
inductive FetchOutcome (β : Type)
  | exn
  | notOk (status : Nat)
  | ok (body : β)
deriving DecidableEq, Repr

/-! ## Semantic Scholar adapter (`SemanticScholarService`) -/

/-- One entry of `paper.authors` in a Semantic Scholar response. -/
structure SSAuthor where
  name : String
deriving DecidableEq, Repr

/-- One paper record of a Semantic Scholar search response. -/
structure SSPaper where
  paperId : String
  title : String
  authors : List SSAuthor
  year : Option Int
  venue : Option String
  externalIdsDOI : Option String
  url : Option String
deriving DecidableEq, Repr

/-- The body of a Semantic Scholar search response. -/
structure SemanticScholarResponse where
  total : Nat
  data : List SSPaper
deriving DecidableEq, Repr

/-- The mapped `SemanticScholarResult` record. -/
structure SemanticScholarResult where
  paperId : String
  title : String
  authors : List String
  year : Option Int
  venue : String
  externalIdsDOI : Option String
  url : String
deriving DecidableEq, Repr

/-- The word-overlap `titleSimilarity` helper defined identically in the
Semantic Scholar and OpenAlex service modules: 100 on equal cleaned
strings, else the rounded ratio of shared distinct words to the larger
distinct-word count. -/
def titleSimilarityWords (a b : String) : Nat :=
  let ca := normalize a
  let cb := normalize b
  if ca = cb then 100
  else
    let wordsA := jsDedup (jsSplitRuns jsIsSpace ca)
    let wordsB := jsDedup (jsSplitRuns jsIsSpace cb)
    let overlap := (wordsA.filter (fun w => wordsB.contains w)).length
    let maxLen := max wordsA.length wordsB.length
    if 0 < maxLen then natRoundDiv (overlap * 100) maxLen else 0

/-- Selection score of one Semantic Scholar paper (title similarity plus the
+20 / +5 year-preference bonus; a year of 0 or `null` is falsy in JS and
earns no bonus). -/
def ssPaperScore (title : String) (expectedYear : Option String) (paper : SSPaper) : Int :=
  let score : Int := titleSimilarityWords title paper.title
  if truthy expectedYear then
    match paper.year with
    | some py =>
        if py = 0 then score
        else if toString py = jsStr expectedYear then score + 20
        else if jsAbsDiffEq (some py) (jsParseInt (jsStr expectedYear)) 1 then score + 5
        else score
    | none => score
  else score

/-- The `searchSemanticScholar` function of the source over an explicit
fetch outcome: `none` on a thrown error, on a non-success status and on an
empty result list; otherwise the best-scoring paper mapped to the common
record shape. -/
def searchSemanticScholar (title : String) (expectedYear : Option String)
    (fo : FetchOutcome SemanticScholarResponse) : Option SemanticScholarResult :=
  match fo with
  | .exn => none
  | .notOk _ => none
  | .ok body =>
      match body.data with
      | [] => none
      | p0 :: rest =>
          let best := ((p0 :: rest).foldl
            (fun acc paper =>
              let s := ssPaperScore title expectedYear paper
              if acc.2 < s then (paper, s) else acc)
            (p0, (-1 : Int))).1
          some { paperId := best.paperId, title := best.title,
                 authors := best.authors.map SSAuthor.name,
                 year := best.year,
                 venue := jsStr best.venue,
                 externalIdsDOI := best.externalIdsDOI,
                 url := jsOrStr best.url
                   ("https://www.semanticscholar.org/paper/" ++ best.paperId) }

/-- One author entry of the Semantic Scholar / OpenAlex APA formatters:
split the display name on single spaces, pop the last word as family name,
abbreviate the remaining words to initials. -/
def apaNameEntry (name : String) : String :=
  let parts := jsSplitStr " " name
  let lastName := jsStr parts.getLast?
  let initials := String.intercalate " "
    (parts.dropLast.map (fun p =>
      (match p.data with
       | c :: _ => String.mk [c]
       | [] => "undefined") ++ "."))
  lastName ++ ", " ++ initials

/-- The `map((name, idx) => ...)` loop of the two APA formatters: the entry
at the last index gets an `"& "` when there is more than one author. -/
def apaIdxEntries (total : Nat) : Nat → List String → List String
  | _, [] => []
  | idx, name :: rest =>
      (if idx = total - 1 ∧ 1 < total then "& " ++ apaNameEntry name else apaNameEntry name)
        :: apaIdxEntries total (idx + 1) rest

/-- JS `x || 'n.d.'` for a numeric year (0 and `null` are falsy). -/
def yearOrND (year : Option Int) : String :=
  match year with
  | some 0 => "n.d."
  | some y => toString y
  | none => "n.d."

/-- The `formatSemanticScholarAPA` function of the source. -/
def formatSemanticScholarAPA (paper : SemanticScholarResult) : String :=
  let authors := String.intercalate ", " (apaIdxEntries paper.authors.length 0 paper.authors)
  let year := yearOrND paper.year
  let doi := match paper.externalIdsDOI with
    | some d => if d.isEmpty then "" else "https://doi.org/" ++ d
    | none => ""
  let base := authors ++ " (" ++ year ++ "). " ++ paper.title ++ "."
  let withVenue := if paper.venue.isEmpty then base else base ++ " " ++ paper.venue ++ "."
  if doi.isEmpty then withVenue else withVenue ++ " " ++ doi

/-- The `generateSemanticScholarBibTeX` function of the source. -/
def generateSemanticScholarBibTeX (paper : SemanticScholarResult) : String :=
  let authors := String.intercalate " and " paper.authors
  let year := yearOrND paper.year
  let firstAuthor :=
    jsOrStr (paper.authors.head?.map (fun a => jsStr (jsSplitStr " " a).getLast?)) "Unknown"
  let cleanTitle := String.mk (((jsSplitStr " " paper.title).headD "").data.filter Char.isAlphanum)
  let id := firstAuthor ++ year ++ cleanTitle
  let b1 := "@article\x7b" ++ id ++ ",\n  title=\x7b" ++ paper.title ++ "\x7d,\n  author=\x7b"
    ++ authors ++ "\x7d,\n  year=\x7b" ++ year ++ "\x7d"
  let b2 := if paper.venue.isEmpty then b1 else b1 ++ ",\n  journal=\x7b" ++ paper.venue ++ "\x7d"
  let b3 := match paper.externalIdsDOI with
    | some d => if d.isEmpty then b2 else b2 ++ ",\n  doi=\x7b" ++ d ++ "\x7d"
    | none => b2
  b3 ++ "\n\x7d"

/-! ## OpenAlex adapter (`OpenAlexService`) -/

/-- One entry of `work.authorships` (only `author.display_name` is read). -/
structure OAAuthorship where
  displayName : String
deriving DecidableEq, Repr

/-- One work record of an OpenAlex search response. -/
structure OAWork where
  id : String
  title : String
  authorships : List OAAuthorship
  publicationYear : Option Int
  primarySourceDisplayName : Option String
  doi : Option String
deriving DecidableEq, Repr

/-- The body of an OpenAlex search response. -/
structure OAResponse where
  results : List OAWork
deriving DecidableEq, Repr

/-- The mapped `OpenAlexResult` record. -/
structure OpenAlexResult where
  id : String
  title : String
  authors : List String
  year : Option Int
  journal : String
  doi : Option String
  url : String
deriving DecidableEq, Repr

/-- Selection score of one OpenAlex work (same formula as the Semantic
Scholar adapter). -/
def oaWorkScore (title : String) (expectedYear : Option String) (work : OAWork) : Int :=
  let score : Int := titleSimilarityWords title work.title
  if truthy expectedYear then
    match work.publicationYear with
    | some py =>
        if py = 0 then score
        else if toString py = jsStr expectedYear then score + 20
        else if jsAbsDiffEq (some py) (jsParseInt (jsStr expectedYear)) 1 then score + 5
        else score
    | none => score
  else score

/-- The `searchOpenAlex` function of the source over an explicit fetch
outcome. -/
def searchOpenAlex (title : String) (expectedYear : Option String)
    (fo : FetchOutcome OAResponse) : Option OpenAlexResult :=
  match fo with
  | .exn => none
  | .notOk _ => none
  | .ok body =>
      match body.results with
      | [] => none
      | w0 :: rest =>
          let best := ((w0 :: rest).foldl
            (fun acc work =>
              let s := oaWorkScore title expectedYear work
              if acc.2 < s then (work, s) else acc)
            (w0, (-1 : Int))).1
          some { id := best.id, title := best.title,
                 authors := best.authorships.map OAAuthorship.displayName,
                 year := best.publicationYear,
                 journal := jsStr best.primarySourceDisplayName,
                 doi := best.doi,
                 url := jsOrStr best.doi best.id }

/-- The `formatOpenAlexAPA` function of the source (the DOI is appended as
stored, without a prefix). -/
def formatOpenAlexAPA (work : OpenAlexResult) : String :=
  let authors := String.intercalate ", " (apaIdxEntries work.authors.length 0 work.authors)
  let year := yearOrND work.year
  let base := authors ++ " (" ++ year ++ "). " ++ work.title ++ "."
  let withJournal := if work.journal.isEmpty then base else base ++ " " ++ work.journal ++ "."
  match work.doi with
  | some d => if d.isEmpty then withJournal else withJournal ++ " " ++ d
  | none => withJournal

/-- Removal of the first occurrence of `pat` (JS
`s.replace('literal', '')`). -/
def removeFirstGo (pat : List Char) : Nat → List Char → List Char
  | 0, s => s
  | _ + 1, [] => []
  | fuel + 1, c :: cs =>
      if pat.isPrefixOf (c :: cs) then (c :: cs).drop pat.length
      else c :: removeFirstGo pat fuel cs

/-- JS `s.replace(pat, '')` for a literal pattern string. -/
def jsRemoveFirst (pat : String) (s : String) : String :=
  String.mk (removeFirstGo pat.data s.data.length s.data)

/-- The `generateOpenAlexBibTeX` function of the source (the
`https://doi.org/` prefix is stripped from the DOI field). -/
def generateOpenAlexBibTeX (work : OpenAlexResult) : String :=
  let authors := String.intercalate " and " work.authors
  let year := yearOrND work.year
  let firstAuthor :=
    jsOrStr (work.authors.head?.map (fun a => jsStr (jsSplitStr " " a).getLast?)) "Unknown"
  let cleanTitle := String.mk (((jsSplitStr " " work.title).headD "").data.filter Char.isAlphanum)
  let id := firstAuthor ++ year ++ cleanTitle
  let b1 := "@article\x7b" ++ id ++ ",\n  title=\x7b" ++ work.title ++ "\x7d,\n  author=\x7b"
    ++ authors ++ "\x7d,\n  year=\x7b" ++ year ++ "\x7d"
  let b2 := if work.journal.isEmpty then b1 else b1 ++ ",\n  journal=\x7b" ++ work.journal ++ "\x7d"
  let b3 := match work.doi with
    | some d =>
        if d.isEmpty then b2
        else b2 ++ ",\n  doi=\x7b" ++ jsRemoveFirst "https://doi.org/" d ++ "\x7d"
    | none => b2
  b3 ++ "\n\x7d"

/-! ## Fallback orchestrator (`checkWithFallback`) -/

/-- The `normalizeAuthorName` helper of the source. -/
def normalizeAuthorName (name : String) : String :=
  jsTrim (String.mk ((name.data.map asciiLower).filter
    (fun c => ('a' ≤ c && c ≤ 'z') || jsIsSpace c)))

/-- JS `author.split(' ').pop() || author`. -/
def lastWordOr (author : String) : String :=
  jsOrStr (jsSplitStr " " author).getLast? author

/-- The `authorsMatch` function of the source: at least
`ceil(|source1| / 2)` of the first list's last names occur (as substrings,
in either direction against the second list's last names) in the second
list. -/
def authorsMatch (source1 source2 : List String) : Bool :=
  if source1.isEmpty || source2.isEmpty then false
  else
    let norm1 := source1.map normalizeAuthorName
    let norm2 := source2.map normalizeAuthorName
    let hits := (norm1.filter (fun author =>
      let lastName := lastWordOr author
      norm2.any (fun a2 =>
        strIncludes a2 lastName
          || strIncludes lastName (jsOrStr (jsSplitStr " " a2).getLast? "")))).length
    decide ((source1.length + 1) / 2 ≤ hits)

/-- The three provider interactions of one `checkWithFallback` call, made
explicit. -/
structure ProviderEnv where
  crossref : Option (List CrossRefItem)
  semanticScholar : FetchOutcome SemanticScholarResponse
  openAlex : FetchOutcome OAResponse
deriving DecidableEq, Repr

/-- One provider query event (used to record the order in which
`checkWithFallback` awaits the three searches). -/
inductive SourceTag
  | crossRef | semanticScholar | openAlex
deriving DecidableEq, Repr

/-- Issue scan of the version-correction branches:
`i.toLowerCase().includes('year') || ... ('version') || ... ('preprint')`. -/
def isVersionIssue (i : String) : Bool :=
  strIncludes (lowerStr i) "year" || strIncludes (lowerStr i) "version"
    || strIncludes (lowerStr i) "preprint"

/-- The not-found result of `checkWithFallback` when every source has been
exhausted. -/
def exhaustedResult : CheckResult :=
  { exists_ := false, matchConfidence := 0, titleMatchScore := 0, authorMatchScore := 0,
    journalMatchScore := 0,
    issues := ["Title not found in any source (CrossRef, Semantic Scholar, OpenAlex)"],
    source := .notFound }

/-- The result promoted from a Semantic Scholar hit when CrossRef found
nothing and the title similarity clears the threshold. -/
def ssPromoteResult (ssResult : SemanticScholarResult) (ssTitleSim : Nat) : CheckResult :=
  { exists_ := true,
    title := some ssResult.title,
    authors := some (String.intercalate ", " ssResult.authors),
    year := some (match ssResult.year with | some y => toString y | none => ""),
    journal := some ssResult.venue,
    url := some ssResult.url,
    doi := ssResult.externalIdsDOI,
    apa := some (formatSemanticScholarAPA ssResult),
    bibtex := some (generateSemanticScholarBibTeX ssResult),
    source := .semanticScholar,
    matchConfidence := min 95 ((ssTitleSim : Rat) + 10),
    titleMatchScore := (ssTitleSim : Rat),
    authorMatchScore := 100,
    journalMatchScore := if ssResult.venue.isEmpty then 50 else 90,
    issues := [] }

/-- The Semantic Scholar phase of `checkWithFallback`: `some r` models an
early `return r` inside the `if (ssResult)` block, `none` falling through
to the OpenAlex phase. -/
def ssPhase (expected : Option ExpectedMetadata) (title : String)
    (expectedYear : Option String) (crossRefResult : CheckResult)
    (ssOpt : Option SemanticScholarResult) : Option CheckResult :=
  match ssOpt with
  | none => none
  | some ssResult =>
      let ssAuthors := ssResult.authors
      let ssTitleSim := calculateSimilarity title ssResult.title
      let promote : Option CheckResult :=
        if !crossRefResult.exists_ then
          if ssTitleSim < MIN_TITLE_SIMILARITY then none
          else some (ssPromoteResult ssResult ssTitleSim)
        else none
      let authorFix : Option CheckResult :=
        if crossRefResult.exists_ && truthy (expAuthors expected) then
          let expectedAuthorList :=
            (splitAuthorsLoose (jsStr (expAuthors expected))).map jsTrim
          if !authorsMatch expectedAuthorList ssAuthors
              && authorsMatch (jsSplitStr ", " (jsStr crossRefResult.authors)) ssAuthors then
            some { crossRefResult with
                   correctedApa := some (formatSemanticScholarAPA ssResult),
                   correctedBibtex := some (generateSemanticScholarBibTeX ssResult),
                   fallbackSource := some .semanticScholar }
          else none
        else none
      let versionFix : Option CheckResult :=
        if crossRefResult.exists_ && crossRefResult.issues.any isVersionIssue then
          if truthy expectedYear
              && (match ssResult.year with
                  | some y => toString y == jsStr expectedYear
                  | none => false) then
            some { crossRefResult with
                   correctedApa := some (formatSemanticScholarAPA ssResult),
                   correctedBibtex := some (generateSemanticScholarBibTeX ssResult),
                   fallbackSource := some .semanticScholar,
                   matchConfidence := min 100 (crossRefResult.matchConfidence + 15) }
          else none
        else none
      match promote with
      | some r => some r
      | none =>
          match authorFix with
          | some r => some r
          | none => versionFix

/-- The not-found result returned when neither CrossRef nor OpenAlex
cleared the title threshold; it keeps the larger of the two title
similarities. -/
def oaBelowResult (crossRefResult : CheckResult) (oaTitleSim : Nat) : CheckResult :=
  { exists_ := false,
    matchConfidence := 0,
    titleMatchScore := max crossRefResult.titleMatchScore (oaTitleSim : Rat),
    authorMatchScore := 0,
    journalMatchScore := 0,
    issues := ["Title not found in any source (CrossRef, Semantic Scholar, OpenAlex)"],
    source := .notFound }

/-- The result promoted from an OpenAlex hit when CrossRef (and Semantic
Scholar) found nothing and the title similarity clears the threshold. -/
def oaPromoteResult (oaResult : OpenAlexResult) (oaTitleSim : Nat) : CheckResult :=
  { exists_ := true,
    title := some oaResult.title,
    authors := some (String.intercalate ", " oaResult.authors),
    year := some (match oaResult.year with | some y => toString y | none => ""),
    journal := some oaResult.journal,
    url := some oaResult.url,
    doi := if truthy oaResult.doi then oaResult.doi else none,
    apa := some (formatOpenAlexAPA oaResult),
    bibtex := some (generateOpenAlexBibTeX oaResult),
    source := .openAlex,
    matchConfidence := min 90 ((oaTitleSim : Rat) + 5),
    titleMatchScore := (oaTitleSim : Rat),
    authorMatchScore := 100,
    journalMatchScore := if oaResult.journal.isEmpty then 50 else 85,
    issues := [] }

/-- The OpenAlex phase of `checkWithFallback`: `some r` models an early
`return r` inside the `if (oaResult)` block (note that, as in the source,
the author-correction and version-correction checks here do not re-test
`crossRefResult.exists` — when CrossRef was not found, the promotion branch
already returned one way or the other). -/
def oaPhase (expected : Option ExpectedMetadata) (title : String)
    (expectedYear : Option String) (crossRefResult : CheckResult)
    (oaOpt : Option OpenAlexResult) : Option CheckResult :=
  match oaOpt with
  | none => none
  | some oaResult =>
      let oaAuthors := oaResult.authors
      let oaTitleSim := calculateSimilarity title oaResult.title
      let promote : Option CheckResult :=
        if !crossRefResult.exists_ then
          if oaTitleSim < MIN_TITLE_SIMILARITY then
            some (oaBelowResult crossRefResult oaTitleSim)
          else some (oaPromoteResult oaResult oaTitleSim)
        else none
      let authorFix : Option CheckResult :=
        if truthy (expAuthors expected) then
          let expectedAuthorList :=
            (splitAuthorsLoose (jsStr (expAuthors expected))).map jsTrim
          if !authorsMatch expectedAuthorList oaAuthors
              && authorsMatch (jsSplitStr ", " (jsStr crossRefResult.authors)) oaAuthors then
            some { crossRefResult with
                   correctedApa := some (formatOpenAlexAPA oaResult),
                   correctedBibtex := some (generateOpenAlexBibTeX oaResult),
                   fallbackSource := some .openAlex }
          else none
        else none
      let versionFix : Option CheckResult :=
        if crossRefResult.issues.any isVersionIssue then
          if truthy expectedYear
              && (match oaResult.year with
                  | some y => toString y == jsStr expectedYear
                  | none => false) then
            some { crossRefResult with
                   correctedApa := some (formatOpenAlexAPA oaResult),
                   correctedBibtex := some (generateOpenAlexBibTeX oaResult),
                   fallbackSource := some .openAlex,
                   matchConfidence := min 100 (crossRefResult.matchConfidence + 15) }
          else none
        else none
      match promote with
      | some r => some r
      | none =>
          match authorFix with
          | some r => some r
          | none => versionFix

/-- The `checkWithFallback` function of the source, instrumented with the
ordered list of provider queries it awaits (the second component): CrossRef
is always queried first; the Semantic Scholar search is awaited exactly
when the fallback condition holds, and the OpenAlex search exactly when
additionally no early return fired in the Semantic Scholar block. -/
def checkWithFallbackT (query : String) (expected : Option ExpectedMetadata)
    (env : ProviderEnv) : CheckResult × List SourceTag :=
  let crossRefResult := checkReference query expected env.crossref
  if !crossRefResult.exists_ || crossRefResult.matchConfidence < 70
      || !crossRefResult.issues.isEmpty then
    let title := jsOrStr (expTitle expected) query
    let expectedYear := expYear expected
    let ssOpt := searchSemanticScholar title expectedYear env.semanticScholar
    match ssPhase expected title expectedYear crossRefResult ssOpt with
    | some r => (r, [.crossRef, .semanticScholar])
    | none =>
        let oaOpt := searchOpenAlex title expectedYear env.openAlex
        match oaPhase expected title expectedYear crossRefResult oaOpt with
        | some r => (r, [.crossRef, .semanticScholar, .openAlex])
        | none =>
            if !crossRefResult.exists_ then
              (exhaustedResult, [.crossRef, .semanticScholar, .openAlex])
            else (crossRefResult, [.crossRef, .semanticScholar, .openAlex])
  else (crossRefResult, [.crossRef])

/-- The `checkWithFallback` function itself (result component). -/
def checkWithFallback (query : String) (expected : Option ExpectedMetadata)
    (env : ProviderEnv) : CheckResult :=
  (checkWithFallbackT query expected env).1

/-! ## Correctness of the Levenshtein dynamic program

`levenshteinDistance` (the row-filling loop of the source) is related to the
recursive reference definition `levRec`; from this, symmetry of the distance
and of `calculateSimilarity` follow. -/

theorem levRec_nil_left (ys : List Char) : levRec [] ys = ys.length := by
  simp [levRec]

theorem levRec_nil_right (xs : List Char) : levRec xs [] = xs.length := by
  cases xs <;> simp [levRec]

theorem levRec_comm (xs ys : List Char) : levRec xs ys = levRec ys xs := by
  induction xs, ys using levRec.induct with
  | case1 ys => rw [levRec_nil_left, levRec_nil_right]
  | case2 x xs => rw [levRec_nil_left, levRec_nil_right]
  | case3 xs y ys ih => simp [levRec, ih]
  | case4 x xs y ys hxy ih1 ih2 ih3 =>
      simp only [levRec, if_neg hxy, if_neg (Ne.symm hxy)]
      rw [ih1, ih2, ih3]
      omega

/-- Distance between reversed lists: the cell contents of the source's
prefix matrix (`levSnoc p c` is the distance between prefixes `p` and `c`,
computed along their last characters). -/
def levSnoc (p c : List Char) : Nat :=
  levRec p.reverse c.reverse

theorem levSnoc_nil_left (c : List Char) : levSnoc [] c = c.length := by
  simp [levSnoc, levRec_nil_left]

theorem levSnoc_nil_right (p : List Char) : levSnoc p [] = p.length := by
  simp [levSnoc, levRec_nil_right]

theorem levSnoc_snoc_snoc (p c : List Char) (x y : Char) :
    levSnoc (p ++ [x]) (c ++ [y])
      = if x = y then levSnoc p c
        else 1 + min (levSnoc p c) (min (levSnoc (p ++ [x]) c) (levSnoc p (c ++ [y]))) := by
  simp only [levSnoc, List.reverse_append, List.reverse_cons, List.reverse_nil,
    List.nil_append, List.cons_append, List.singleton_append]
  rw [levRec]

/-- The tail of one matrix row, as specified by `levSnoc`: distances of the
prefixes `p ++ (as.take k)`, `k = 1, ..., |as|`, against `c`. -/
def edRow (p : List Char) : List Char → List Char → List Nat
  | [], _ => []
  | x :: xs, c => levSnoc (p ++ [x]) c :: edRow (p ++ [x]) xs c

theorem levRowGo_spec (bc : Char) (as : List Char) : ∀ p c : List Char,
    levRowGo bc as (edRow p as c) (levSnoc p c) (levSnoc p (c ++ [bc]))
      = edRow p as (c ++ [bc]) := by
  induction as with
  | nil => intro p c; simp [edRow, levRowGo]
  | cons x xs ih =>
      intro p c
      simp only [edRow, levRowGo]
      have hcur :
          (if bc = x then levSnoc p c
           else min (levSnoc p c + 1)
             (min (levSnoc p (c ++ [bc]) + 1) (levSnoc (p ++ [x]) c + 1)))
            = levSnoc (p ++ [x]) (c ++ [bc]) := by
        rw [levSnoc_snoc_snoc]
        by_cases h : x = bc
        · simp [h]
        · rw [if_neg h, if_neg (fun hh => h hh.symm)]
          omega
      rw [hcur, ih (p ++ [x]) c]

/-- One full matrix row (entry 0 plus the `edRow` tail). -/
def fullRow (a c : List Char) : List Nat :=
  levSnoc [] c :: edRow [] a c

theorem levNextRow_spec (bc : Char) (a c : List Char) :
    levNextRow bc a (fullRow a c) (c.length + 1) = fullRow a (c ++ [bc]) := by
  have h1 : levSnoc [] (c ++ [bc]) = c.length + 1 := by
    rw [levSnoc_nil_left]; simp
  simp only [fullRow, levNextRow]
  rw [← h1, levRowGo_spec bc a [] c]

theorem edRow_nil_c (as : List Char) : ∀ p : List Char,
    edRow p as [] = (List.range as.length).map (fun k => p.length + k + 1) := by
  induction as with
  | nil => intro p; simp [edRow]
  | cons x xs ih =>
      intro p
      simp only [edRow, levSnoc_nil_right, List.length_cons]
      rw [ih (p ++ [x]), List.range_succ_eq_map, List.map_cons, List.map_map]
      refine congrArg₂ List.cons (by simp) ?_
      refine List.map_congr_left (fun k _ => ?_)
      simp only [Function.comp_apply, List.length_append, List.length_cons, List.length_nil]
      omega

theorem fullRow_nil (a : List Char) : fullRow a [] = List.range (a.length + 1) := by
  simp only [fullRow, levSnoc_nil_left, List.length_nil]
  rw [edRow_nil_c a [], List.range_succ_eq_map]
  refine congrArg₂ List.cons rfl ?_
  refine List.map_congr_left (fun k _ => ?_)
  simp

theorem fold_spec (a : List Char) (bs : List Char) : ∀ c : List Char,
    (List.enumFrom c.length bs).foldl
        (fun row p => levNextRow p.2 a row (p.1 + 1)) (fullRow a c)
      = fullRow a (c ++ bs) := by
  induction bs with
  | nil => intro c; simp
  | cons y ys ih =>
      intro c
      simp only [List.enumFrom, List.foldl_cons]
      rw [levNextRow_spec y a c]
      have h : c.length + 1 = (c ++ [y]).length := by simp
      rw [h, ih (c ++ [y])]
      simp

theorem edRow_getLast (as : List Char) : ∀ (p c : List Char) (d : Nat),
    (levSnoc p c :: edRow p as c).getLastD d = levSnoc (p ++ as) c := by
  induction as with
  | nil => intro p c d; simp [edRow]
  | cons x xs ih =>
      intro p c d
      have h := ih (p ++ [x]) c d
      rw [List.getLastD_cons] at h
      simp only [edRow, List.getLastD_cons]
      rw [h]
      simp

theorem levenshteinDistance_eq_levRec (a b : List Char) :
    levenshteinDistance a b = levRec a.reverse b.reverse := by
  have h0 : levenshteinDistance a b
      = ((List.enumFrom ([] : List Char).length b).foldl
          (fun row p => levNextRow p.2 a row (p.1 + 1)) (fullRow a [])).getLastD 0 := by
    rw [fullRow_nil]
    rfl
  rw [h0, fold_spec a b [], List.nil_append]
  have h1 := edRow_getLast a [] b 0
  simp only [List.nil_append] at h1
  exact h1

theorem levenshteinDistance_comm (a b : List Char) :
    levenshteinDistance a b = levenshteinDistance b a := by
  rw [levenshteinDistance_eq_levRec, levenshteinDistance_eq_levRec, levRec_comm]

/-! ## Properties of `calculateSimilarity` -/

theorem natRoundDiv_le_100 (num den : Nat) (h : num ≤ 100 * den) :
    natRoundDiv num den ≤ 100 := by
  unfold natRoundDiv
  rcases Nat.eq_zero_or_pos den with hd | hd
  · subst hd; simp
  · calc (2 * num + den) / (2 * den) ≤ 201 * den / (2 * den) :=
          Nat.div_le_div_right (by omega)
      _ = 201 / 2 := Nat.mul_div_mul_right 201 2 hd
      _ = 100 := rfl

theorem calculateSimilarity_le_100 (a b : String) : calculateSimilarity a b ≤ 100 := by
  simp only [calculateSimilarity]
  split
  · omega
  · split
    · omega
    · split
      · omega
      · exact natRoundDiv_le_100 _ _ (by omega)

theorem calculateSimilarity_comm (a b : String) :
    calculateSimilarity a b = calculateSimilarity b a := by
  simp only [calculateSimilarity]
  by_cases ha : a.isEmpty <;> by_cases hb : b.isEmpty <;>
    simp only [ha, hb, Bool.true_or, Bool.or_true, Bool.false_or, Bool.or_false,
      Bool.false_eq_true, if_false, if_true]
  by_cases hc : cleanStr a = cleanStr b
  · simp [hc]
  · rw [if_neg hc, if_neg (Ne.symm hc)]
    -- the two inner branches coincide after commuting the distance and the max
    rw [Nat.max_comm (cleanStr a).length,
      levenshteinDistance_comm (cleanStr a).data]

theorem calculateSimilarity_self (s : String) (h : s ≠ "") :
    calculateSimilarity s s = 100 := by
  have he : s.isEmpty = false := by
    rw [Bool.eq_false_iff]
    intro hh
    exact h ((String.isEmpty_iff s).1 hh)
  simp only [calculateSimilarity, Bool.or_self, he, Bool.false_eq_true, if_false]
  rw [if_pos trivial]

theorem calculateSimilarity_empty_right (s : String) : calculateSimilarity s "" = 0 := by
  have he : ("" : String).isEmpty = true := rfl
  simp only [calculateSimilarity, he, Bool.or_true]
  rw [if_pos trivial]

theorem jsRound_natCast_div (n m : Nat) (hm : 0 < m) :
    jsRound ((n : Rat) / m) = (natRoundDiv n m : Int) := by
  unfold jsRound natRoundDiv
  have hm0 : ((m : Rat)) ≠ 0 := by positivity
  have h1 : (n : Rat) / m + 1 / 2 = ((2 * n + m : Nat) : Rat) / ((2 * m : Nat) : Rat) := by
    push_cast
    field_simp
    ring
  rw [h1, Rat.floor_natCast_div_natCast]
  norm_cast

theorem natRoundDiv_sub_eq_jsRound (d m : Nat) (hm : 0 < m) :
    (natRoundDiv ((m - d) * 100) m : Int)
      = max 0 (jsRound ((1 - (d : Rat) / m) * 100)) := by
  have hmR : (0 : Rat) < m := by positivity
  rcases le_or_lt d m with h | h
  · have hq : (1 - (d : Rat) / m) * 100 = (((m - d) * 100 : Nat) : Rat) / m := by
      push_cast [h]
      field_simp
    rw [hq, jsRound_natCast_div _ _ hm, max_eq_right (Int.natCast_nonneg _)]
  · have hl : m - d = 0 := by omega
    rw [hl]
    have hz : natRoundDiv (0 * 100) m = 0 := by
      unfold natRoundDiv
      rw [Nat.zero_mul, Nat.mul_zero, Nat.zero_add]
      exact Nat.div_eq_of_lt (by omega)
    rw [hz]
    have hdm : (1 : Rat) < (d : Rat) / m := by
      rw [lt_div_iff₀ hmR]
      rw [one_mul]
      exact_mod_cast h
    have hneg : jsRound ((1 - (d : Rat) / m) * 100) ≤ 0 := by
      unfold jsRound
      have hlt : (1 - (d : Rat) / m) * 100 + 1 / 2 < 1 := by nlinarith
      have := Int.floor_lt.2 (by exact_mod_cast hlt :
        (1 - (d : Rat) / m) * 100 + 1 / 2 < ((1 : Int) : Rat))
      omega
    omega

/-! ## Claim C6 -/

/-- C6, counterexample to the claim as stated: `calculateSimilarity(s, s)`
is not 100 for every string `s` — on the empty string the function returns 0
through its empty-input guard (`if (!str1 || !str2) return 0`). -/
theorem c6_counterexample :
    calculateSimilarity "" "" = 0 ∧ calculateSimilarity "" "" ≠ 100 := by
  constructor
  · rfl
  · decide

/-- C6 (amended): reflexivity of `calculateSimilarity` holds for nonempty
strings (the empty string falls into the empty-input guard and yields 0);
`calculateSimilarity s "" = 0` for nonempty `s`; the function is symmetric;
and on nonempty inputs whose cleaned forms differ it equals
`max(0, round((1 - levenshteinDistance/maxLength) * 100))` over the
lowercased, punctuation-stripped inputs. -/
theorem calculateSimilarity_spec :
    (∀ s : String, s ≠ "" → calculateSimilarity s s = 100)
    ∧ (∀ s : String, s ≠ "" → calculateSimilarity s "" = 0)
    ∧ (∀ a b : String, calculateSimilarity a b = calculateSimilarity b a)
    ∧ (∀ a b : String, a ≠ "" → b ≠ "" → cleanStr a ≠ cleanStr b →
        (calculateSimilarity a b : Int)
          = max 0 (jsRound ((1 -
              (levenshteinDistance (cleanStr a).data (cleanStr b).data : Rat)
                / ((max (cleanStr a).length (cleanStr b).length : Nat) : Rat)) * 100))) := by
  refine ⟨calculateSimilarity_self, fun s _ => calculateSimilarity_empty_right s,
    calculateSimilarity_comm, ?_⟩
  intro a b ha hb hc
  have hea : a.isEmpty = false := by
    rw [Bool.eq_false_iff]
    intro hh
    exact ha ((String.isEmpty_iff a).1 hh)
  have heb : b.isEmpty = false := by
    rw [Bool.eq_false_iff]
    intro hh
    exact hb ((String.isEmpty_iff b).1 hh)
  simp only [calculateSimilarity, hea, heb, Bool.or_false, Bool.false_eq_true, if_false]
  rw [if_neg hc]
  have hm : max (cleanStr a).length (cleanStr b).length ≠ 0 := by
    intro h0
    apply hc
    apply String.ext
    have la : (cleanStr a).data.length = 0 := by
      have : (cleanStr a).length = 0 := by omega
      exact this
    have lb : (cleanStr b).data.length = 0 := by
      have : (cleanStr b).length = 0 := by omega
      exact this
    rw [List.length_eq_zero.1 la, List.length_eq_zero.1 lb]
  rw [if_neg hm]
  exact natRoundDiv_sub_eq_jsRound _ _ (Nat.pos_of_ne_zero hm)

/-- C6, witness: the amended theorem applied at concrete inputs. -/
theorem c6_witness :
    calculateSimilarity "Deep Learning" "Deep Learning" = 100
    ∧ calculateSimilarity "Deep Learning" "" = 0
    ∧ (calculateSimilarity "ab" "cd" : Int)
        = max 0 (jsRound ((1 -
            (levenshteinDistance (cleanStr "ab").data (cleanStr "cd").data : Rat)
              / ((max (cleanStr "ab").length (cleanStr "cd").length : Nat) : Rat)) * 100)) :=
  ⟨calculateSimilarity_spec.1 "Deep Learning" (by decide),
   calculateSimilarity_spec.2.1 "Deep Learning" (by decide),
   calculateSimilarity_spec.2.2.2 "ab" "cd" (by decide) (by decide) (by decide)⟩

/-! ## Claim C1: score bounds -/

theorem titleScoreFor_le (q nq : String) (e : Option ExpectedMetadata) (t : String) :
    titleScoreFor q nq e t ≤ 100 := by
  unfold titleScoreFor
  split
  · exact calculateSimilarity_le_100 _ _
  · split
    · omega
    · exact calculateSimilarity_le_100 _ _

theorem freeAuthorPair_le (nq : String) (item : CrossRefItem) (ts : Nat) :
    (freeAuthorPair nq item ts).1 ≤ 100 := by
  simp only [freeAuthorPair]
  split
  · omega
  · split
    · have hle := List.length_filter_le (fun a => strIncludes nq a) (realAuthorFamilies item)
      have hb : natRoundDiv
          (((realAuthorFamilies item).filter (fun a => strIncludes nq a)).length * 100)
          (realAuthorFamilies item).length ≤ 100 :=
        natRoundDiv_le_100 _ _ (by omega)
      dsimp only
      exact_mod_cast hb
    · omega

theorem freeFakePair_le (q : String) (item : CrossRefItem) (base : Int)
    (h : base ≤ 100) : (freeFakePair q item base).1 ≤ 100 := by
  simp only [freeFakePair]
  split
  · have hnn : (0 : Int) ≤ 10 * ((uniqueFakeTokens q item).length : Int) := by positivity
    omega
  · exact h

theorem freeJournalPair_le (nq : String) (item : CrossRefItem) (ts : Nat) :
    (freeJournalPair nq item ts).1 ≤ 100 := by
  simp only [freeJournalPair]
  split
  · split
    · omega
    · split <;> omega
  · omega

theorem freeTextScores_bounds (q : String) (item : CrossRefItem) (ts0 : Nat)
    (h : ts0 ≤ 100) :
    (freeTextScores q item ts0).titleSim ≤ 100
    ∧ (freeTextScores q item ts0).authorSim ≤ 100
    ∧ (freeTextScores q item ts0).journalSim ≤ 100 := by
  simp only [freeTextScores]
  refine ⟨?_, ?_, ?_⟩
  · simp only [freeTitleSim]
    split <;> omega
  · exact freeFakePair_le _ _ _ (freeAuthorPair_le _ _ _)
  · exact freeJournalPair_le _ _ _

theorem structuredAuthorBase_le (e : ExpectedMetadata) (item : CrossRefItem) :
    structuredAuthorBase e item ≤ 100 := by
  simp only [structuredAuthorBase]
  split
  · have hmin : min 100 (natRoundDiv (((realAuthorFamilies item).filter
        (fun a => strIncludes (normalize (jsStr e.authors)) a)).length * 100)
        (realAuthorFamilies item).length) ≤ 100 := Nat.min_le_left _ _
    exact_mod_cast hmin
  · exact_mod_cast calculateSimilarity_le_100 (jsStr e.authors) item.resultAuthors

theorem structuredAuthorPair_le (e : ExpectedMetadata) (item : CrossRefItem) :
    (structuredAuthorPair e item).1 ≤ 100 := by
  simp only [structuredAuthorPair]
  split
  · split
    · have hnn : (0 : Int) ≤ 20 * ((structuredExtraAuthors e item).length : Int) := by
        positivity
      have := structuredAuthorBase_le e item
      omega
    · exact structuredAuthorBase_le e item
  · omega

theorem structuredJournalPair_le (e : ExpectedMetadata) (item : CrossRefItem) (ts : Nat) :
    (structuredJournalPair e item ts).1 ≤ 100 := by
  have hcj : calculateSimilarity (jsStr e.journal) item.resultJournal ≤ 100 :=
    calculateSimilarity_le_100 _ _
  simp only [structuredJournalPair]
  split
  · split
    · split <;> omega
    · omega
  · omega

theorem structuredScores_bounds (e : ExpectedMetadata) (item : CrossRefItem) (ts : Nat) :
    (structuredScores e item ts).authorSim ≤ 100
    ∧ (structuredScores e item ts).journalSim ≤ 100 := by
  exact ⟨structuredAuthorPair_le e item, structuredJournalPair_le e item ts⟩

/-- Bounds for the final clamp `if (c > 100) c = 100; if (c < 0) c = 0`. -/
theorem jsClamp_bounds (x : Rat) :
    0 ≤ (if (if 100 < x then (100 : Rat) else x) < 0 then (0 : Rat)
         else if 100 < x then (100 : Rat) else x)
    ∧ (if (if 100 < x then (100 : Rat) else x) < 0 then (0 : Rat)
       else if 100 < x then (100 : Rat) else x) ≤ 100 := by
  split_ifs <;> constructor <;> linarith

theorem finalizeResult_bounds (expected : Option ExpectedMetadata) (item : CrossRefItem)
    (m : ModeScores) (ht : m.titleSim ≤ 100) (ha : m.authorSim ≤ 100)
    (hj : m.journalSim ≤ 100) :
    0 ≤ (finalizeResult expected item m).matchConfidence
    ∧ (finalizeResult expected item m).matchConfidence ≤ 100
    ∧ 0 ≤ (finalizeResult expected item m).titleMatchScore
    ∧ (finalizeResult expected item m).titleMatchScore ≤ 100
    ∧ 0 ≤ (finalizeResult expected item m).journalMatchScore
    ∧ (finalizeResult expected item m).journalMatchScore ≤ 100
    ∧ (finalizeResult expected item m).authorMatchScore ≤ 100 := by
  simp only [finalizeResult]
  exact ⟨(jsClamp_bounds _).1, (jsClamp_bounds _).2, by positivity, by exact_mod_cast ht,
    by positivity, by exact_mod_cast hj, by exact_mod_cast ha⟩

/-- C1 (amended): for every query, expected metadata and provider response,
the `CheckResult` of `checkReference` has `matchConfidence`,
`titleMatchScore` and `journalMatchScore` within `[0, 100]`, and
`authorMatchScore` never exceeds 100; the author sub-score, however, is not
clamped from below — the extra/fake-author penalties can push it below 0
(see the counterexample). -/
theorem checkReference_score_bounds (query : String) (expected : Option ExpectedMetadata)
    (resp : Option (List CrossRefItem)) :
    0 ≤ (checkReference query expected resp).matchConfidence
    ∧ (checkReference query expected resp).matchConfidence ≤ 100
    ∧ 0 ≤ (checkReference query expected resp).titleMatchScore
    ∧ (checkReference query expected resp).titleMatchScore ≤ 100
    ∧ 0 ≤ (checkReference query expected resp).journalMatchScore
    ∧ (checkReference query expected resp).journalMatchScore ≤ 100
    ∧ (checkReference query expected resp).authorMatchScore ≤ 100 := by
  cases resp with
  | none =>
      refine ⟨?_, ?_, ?_, ?_, ?_, ?_, ?_⟩ <;>
        simp [checkReference, notFoundEmptyResult]
  | some items =>
      cases items with
      | nil =>
          refine ⟨?_, ?_, ?_, ?_, ?_, ?_, ?_⟩ <;>
            simp [checkReference, notFoundEmptyResult]
      | cons first rest =>
          have hts := titleScoreFor_le query (normalize query) expected
            (selectBestItem query expected first rest).resultTitle
          cases expected with
          | none =>
              simp only [checkReference]
              split
              · simp only [belowThresholdResult]
                refine ⟨le_refl 0, by norm_num, by positivity, by exact_mod_cast hts,
                  le_refl 0, by norm_num, by norm_num⟩
              · have hb := freeTextScores_bounds query (selectBestItem query none first rest)
                  (titleScoreFor query (normalize query) none
                    (selectBestItem query none first rest).resultTitle) hts
                exact finalizeResult_bounds none _ _ hb.1 hb.2.1 hb.2.2
          | some e =>
              simp only [checkReference]
              split
              · simp only [belowThresholdResult]
                refine ⟨le_refl 0, by norm_num, by positivity, by exact_mod_cast hts,
                  le_refl 0, by norm_num, by norm_num⟩
              · by_cases htr : truthy e.title
                · rw [if_pos htr]
                  have hsb := structuredScores_bounds e
                    (selectBestItem query (some e) first rest)
                    (titleScoreFor query (normalize query) (some e)
                      (selectBestItem query (some e) first rest).resultTitle)
                  exact finalizeResult_bounds (some e) _ _ hts hsb.1 hsb.2
                · rw [if_neg htr]
                  have hb := freeTextScores_bounds query
                    (selectBestItem query (some e) first rest)
                    (titleScoreFor query (normalize query) (some e)
                      (selectBestItem query (some e) first rest).resultTitle) hts
                  exact finalizeResult_bounds (some e) _ _ hb.1 hb.2.1 hb.2.2

/-- C1 (amended), counterexample to the claim as stated: on a free-text
query containing the unknown capitalized token `Zzzgolem`, none of the
candidate's authors occur in the query, so the author sub-score starts at 0
and the 10-point fake-author penalty drives `authorMatchScore` to `-10`,
below the claimed `[0, 100]` range. -/
theorem c1_counterexample :
    (checkReference "Quantum Entanglement Basics Zzzgolem" none
        (some [{ title := ["Quantum Entanglement Basics"],
                 author := [{ family := some "Smith", given := some "John" }],
                 published := [[2021]],
                 containerTitle := [],
                 url := none, doi := none, score := none }])).authorMatchScore = -10
    ∧ ¬((0 : Rat) ≤ -10) := by
  constructor
  · decide
  · norm_num

/-! ## Claims C2 and C3 -/

/-- A concrete CrossRef item used to instantiate several witnesses: the
paper "Quantum Entanglement Basics" by Smith, John (2021), no journal. -/
def exItemQEB : CrossRefItem :=
  { title := ["Quantum Entanglement Basics"],
    author := [{ family := some "Smith", given := some "John" }],
    published := [[2021]],
    containerTitle := [],
    url := none, doi := none, score := none }

/-- C2: when CrossRef returns at least one candidate and the selected best
candidate's title similarity (against the query in free-text mode, or
against the truthy expected title) is below the fixed threshold
`MIN_TITLE_SIMILARITY = 55`, `checkReference` returns a not-found result —
`exists` is `false` and the single issue says that no sufficiently similar
result was found — instead of a low-confidence match. -/
theorem checkReference_below_threshold (query : String)
    (expected : Option ExpectedMetadata) (first : CrossRefItem) (rest : List CrossRefItem)
    (h : titleScoreFor query (normalize query) expected
        (selectBestItem query expected first rest).resultTitle < MIN_TITLE_SIMILARITY) :
    (checkReference query expected (some (first :: rest))).exists_ = false
    ∧ (checkReference query expected (some (first :: rest))).issues
        = ["Title not found — no sufficiently similar result in CrossRef"] := by
  simp only [checkReference]
  rw [if_pos h]
  exact ⟨rfl, rfl⟩

/-- C2, witness: a query entirely unrelated to the only candidate (title
similarity 19) produces the not-found result with the explanatory issue. -/
theorem c2_witness :
    (checkReference "Alpha Beta" none (some [exItemQEB])).exists_ = false
    ∧ (checkReference "Alpha Beta" none (some [exItemQEB])).issues
        = ["Title not found — no sufficiently similar result in CrossRef"] :=
  checkReference_below_threshold "Alpha Beta" none exItemQEB [] (by decide)

/-- C3 (code bug): in free-text mode the year section subtracts its penalty
from `overallSim` before the overall score is assigned, so the penalty is
overwritten and has no effect.  First conjunct: the overall-score
computation of the source ignores the year penalty entirely (it is
definitionally constant in that argument).  The remaining conjuncts
evaluate the failing input: the query writing year 1999 against a 2021
candidate receives the `Year Mismatch` issue, yet its confidence is 100 —
identical to the same query with the correct year — where the spec promises
a 25-point penalty. -/
theorem c3_year_penalty_dead :
    (∀ (t : Nat) (a : Int) (j : Nat) (p q : Rat), freeOverall t a j p = freeOverall t a j q)
    ∧ (checkReference "Quantum Entanglement Basics Smith 1999" none
          (some [exItemQEB])).issues = ["Year Mismatch: you wrote 1999, actual is 2021"]
    ∧ (checkReference "Quantum Entanglement Basics Smith 1999" none
          (some [exItemQEB])).matchConfidence = 100
    ∧ (checkReference "Quantum Entanglement Basics Smith 2021" none
          (some [exItemQEB])).matchConfidence = 100 := by
  exact ⟨fun t a j p q => rfl, by decide, by decide, by decide⟩

/-! ## Claim C5: fake-author detection -/

theorem str_head_ne {a b : String} (h : a.data.head? ≠ b.data.head?) : a ≠ b :=
  fun he => h (congrArg (fun s : String => s.data.head?) he)

theorem finalizeResult_authorScore (expected : Option ExpectedMetadata)
    (item : CrossRefItem) (m : ModeScores) :
    (finalizeResult expected item m).authorMatchScore = (m.authorSim : Rat) := rfl

theorem finalizeResult_mem_issues (expected : Option ExpectedMetadata)
    (item : CrossRefItem) (m : ModeScores) (s : String) (h : s ∈ m.issues) :
    s ∈ (finalizeResult expected item m).issues := by
  simp only [finalizeResult]
  exact List.mem_append_left _ (List.mem_append_left _ (List.mem_append_left _ h))

theorem finalizeResult_issues_none (item : CrossRefItem) (m : ModeScores) :
    (finalizeResult none item m).issues
      = m.issues ++ (if m.titleSim < 70 then ["Title mismatch"] else []) := by
  simp only [finalizeResult, expAuthors, expJournal, truthy, Bool.false_and,
    Bool.false_eq_true, if_false]
  split <;> simp

theorem checkReference_free_eq (query : String) (first : CrossRefItem)
    (rest : List CrossRefItem)
    (hgate : ¬ titleScoreFor query (normalize query) none
      (selectBestItem query none first rest).resultTitle < MIN_TITLE_SIMILARITY) :
    checkReference query none (some (first :: rest))
      = finalizeResult none (selectBestItem query none first rest)
          (freeTextScores query (selectBestItem query none first rest)
            (titleScoreFor query (normalize query) none
              (selectBestItem query none first rest).resultTitle)) := by
  simp only [checkReference]
  rw [if_neg hgate]

theorem freeTextScores_authorSim (q : String) (item : CrossRefItem) (ts0 : Nat) :
    (freeTextScores q item ts0).authorSim
      = (freeFakePair q item (freeAuthorPair (normalize q) item (freeTitleSim q item ts0)).1).1 :=
  rfl

theorem freeTextScores_issues (q : String) (item : CrossRefItem) (ts0 : Nat) :
    (freeTextScores q item ts0).issues
      = (freeAuthorPair (normalize q) item (freeTitleSim q item ts0)).2
        ++ (freeFakePair q item
            (freeAuthorPair (normalize q) item (freeTitleSim q item ts0)).1).2
        ++ (freeJournalPair (normalize q) item (freeTitleSim q item ts0)).2
        ++ (freeYearPair q item (freeTitleSim q item ts0)).2 :=
  rfl

theorem freeFakePair_pos (q : String) (item : CrossRefItem) (base : Int)
    (h1 : 1 ≤ (uniqueFakeTokens q item).length)
    (h5 : (uniqueFakeTokens q item).length ≤ 5) :
    freeFakePair q item base
      = (base - 10 * (uniqueFakeTokens q item).length,
         ["Possible Extra/Fake Authors: "
           ++ String.intercalate ", " (uniqueFakeTokens q item)]) := by
  simp only [freeFakePair]
  rw [if_pos ⟨h1, h5⟩]

theorem freeFakePair_many (q : String) (item : CrossRefItem) (base : Int)
    (h5 : 5 < (uniqueFakeTokens q item).length) :
    freeFakePair q item base = (base, []) := by
  simp only [freeFakePair]
  rw [if_neg (fun hc => by omega)]

theorem freeAuthorPair_snd (nq : String) (item : CrossRefItem) (ts : Nat) :
    (freeAuthorPair nq item ts).2 = []
    ∨ (freeAuthorPair nq item ts).2 = ["Author Mismatch: none of the real authors found"] := by
  simp only [freeAuthorPair]
  split
  · exact Or.inl rfl
  · split
    · exact Or.inl rfl
    · dsimp only
      split
      · exact Or.inr rfl
      · exact Or.inl rfl

theorem freeJournalPair_snd (nq : String) (item : CrossRefItem) (ts : Nat) :
    (freeJournalPair nq item ts).2 = []
    ∨ (freeJournalPair nq item ts).2
        = ["Note: CrossRef returned preprint venue \"" ++ item.resultJournal ++ "\""]
    ∨ (freeJournalPair nq item ts).2
        = ["Journal Mismatch: actual is \"" ++ item.resultJournal ++ "\""] := by
  simp only [freeJournalPair]
  split
  · split
    · exact Or.inl rfl
    · split
      · dsimp only
        split
        · exact Or.inr (Or.inl rfl)
        · exact Or.inl rfl
      · dsimp only
        split
        · exact Or.inr (Or.inr rfl)
        · exact Or.inl rfl
  · exact Or.inl rfl

theorem freeYearPair_snd (q : String) (item : CrossRefItem) (ts : Nat) :
    (freeYearPair q item ts).2 = []
    ∨ (freeYearPair q item ts).2
        = ["Note: year " ++ (yearsInQuery q).headD "" ++ " vs " ++ item.resultYear
            ++ " (preprint/published version difference)"]
    ∨ (freeYearPair q item ts).2
        = ["Year differs by 1: you wrote " ++ (yearsInQuery q).headD "" ++ ", actual is "
            ++ item.resultYear ++ " (possible version difference)"]
    ∨ (freeYearPair q item ts).2
        = ["Year Mismatch: you wrote " ++ (yearsInQuery q).headD "" ++ ", actual is "
            ++ item.resultYear] := by
  simp only [freeYearPair]
  split
  · split
    · exact Or.inl rfl
    · split
      · split
        · exact Or.inr (Or.inl rfl)
        · split
          · exact Or.inr (Or.inr (Or.inl rfl))
          · exact Or.inr (Or.inr (Or.inr rfl))
      · exact Or.inl rfl
  · exact Or.inl rfl

theorem fakeStr_ne (u b : String) (c : Char) (hb : b.data.head? = some c)
    (hc : ('P' : Char) ≠ c) : ("Possible Extra/Fake Authors: " ++ u) ≠ b := by
  apply str_head_ne
  rw [hb, show ("Possible Extra/Fake Authors: " ++ u).data.head? = some 'P' from rfl]
  exact fun h => hc (Option.some.inj h)

/-- C5: in free-text mode (no expected metadata), when the accepted best
candidate is scored, every unique query token that survives the fake-author
filter — capitalized, normalised length at least 3, not a stop word, not
contained in the normalised candidate title, journal or year, matching no
candidate family name as a substring in either direction and no candidate
given name by first letter (`uniqueFakeTokens`, built exactly from the
source's `continue` chain) — is reported by name in the
`Possible Extra/Fake Authors` issue with a 10-point author-score penalty
per unique token, provided between 1 and 5 unique such tokens exist; with
more than 5 tokens neither the issue nor the penalty is applied. -/
theorem checkReference_fake_author_detection (query : String) (first : CrossRefItem)
    (rest : List CrossRefItem)
    (hgate : MIN_TITLE_SIMILARITY ≤ titleScoreFor query (normalize query) none
      (selectBestItem query none first rest).resultTitle) :
    (1 ≤ (uniqueFakeTokens query (selectBestItem query none first rest)).length →
      (uniqueFakeTokens query (selectBestItem query none first rest)).length ≤ 5 →
      ("Possible Extra/Fake Authors: " ++ String.intercalate ", "
          (uniqueFakeTokens query (selectBestItem query none first rest)))
        ∈ (checkReference query none (some (first :: rest))).issues
      ∧ (checkReference query none (some (first :: rest))).authorMatchScore
          = ((freeAuthorPair (normalize query) (selectBestItem query none first rest)
                (freeTitleSim query (selectBestItem query none first rest)
                  (titleScoreFor query (normalize query) none
                    (selectBestItem query none first rest).resultTitle))).1 : Rat)
            - 10 * (uniqueFakeTokens query (selectBestItem query none first rest)).length)
    ∧ (5 < (uniqueFakeTokens query (selectBestItem query none first rest)).length →
      (checkReference query none (some (first :: rest))).authorMatchScore
          = ((freeAuthorPair (normalize query) (selectBestItem query none first rest)
                (freeTitleSim query (selectBestItem query none first rest)
                  (titleScoreFor query (normalize query) none
                    (selectBestItem query none first rest).resultTitle))).1 : Rat)
      ∧ ("Possible Extra/Fake Authors: " ++ String.intercalate ", "
          (uniqueFakeTokens query (selectBestItem query none first rest)))
          ∉ (checkReference query none (some (first :: rest))).issues) := by
  have hred := checkReference_free_eq query first rest (not_lt.2 hgate)
  constructor
  · intro h1 h5
    constructor
    · rw [hred]
      apply finalizeResult_mem_issues
      rw [freeTextScores_issues, freeFakePair_pos _ _ _ h1 h5]
      simp
    · rw [hred, finalizeResult_authorScore, freeTextScores_authorSim,
        freeFakePair_pos _ _ _ h1 h5]
      push_cast
      ring
  · intro h5
    constructor
    · rw [hred, finalizeResult_authorScore, freeTextScores_authorSim,
        freeFakePair_many _ _ _ h5]
    · rw [hred, finalizeResult_issues_none, freeTextScores_issues,
        freeFakePair_many _ _ _ h5]
      intro hmem
      simp only [List.append_nil, List.mem_append] at hmem
      rcases hmem with ((hA | hJ) | hY) | hT
      · rcases freeAuthorPair_snd (normalize query) (selectBestItem query none first rest)
            (freeTitleSim query (selectBestItem query none first rest)
              (titleScoreFor query (normalize query) none
                (selectBestItem query none first rest).resultTitle)) with hA2 | hA2 <;>
          rw [hA2] at hA
        · exact List.not_mem_nil _ hA
        · exact absurd (List.mem_singleton.1 hA) (fakeStr_ne _ _ 'A' rfl (by decide))
      · rcases freeJournalPair_snd (normalize query) (selectBestItem query none first rest)
            (freeTitleSim query (selectBestItem query none first rest)
              (titleScoreFor query (normalize query) none
                (selectBestItem query none first rest).resultTitle)) with hJ2 | hJ2 | hJ2 <;>
          rw [hJ2] at hJ
        · exact List.not_mem_nil _ hJ
        · exact absurd (List.mem_singleton.1 hJ) (fakeStr_ne _ _ 'N' rfl (by decide))
        · exact absurd (List.mem_singleton.1 hJ) (fakeStr_ne _ _ 'J' rfl (by decide))
      · rcases freeYearPair_snd query (selectBestItem query none first rest)
            (freeTitleSim query (selectBestItem query none first rest)
              (titleScoreFor query (normalize query) none
                (selectBestItem query none first rest).resultTitle)) with hY2 | hY2 | hY2 | hY2 <;>
          rw [hY2] at hY
        · exact List.not_mem_nil _ hY
        · exact absurd (List.mem_singleton.1 hY) (fakeStr_ne _ _ 'N' rfl (by decide))
        · exact absurd (List.mem_singleton.1 hY) (fakeStr_ne _ _ 'Y' rfl (by decide))
        · exact absurd (List.mem_singleton.1 hY) (fakeStr_ne _ _ 'Y' rfl (by decide))
      · split at hT
        · exact absurd (List.mem_singleton.1 hT) (fakeStr_ne _ _ 'T' rfl (by decide))
        · exact List.not_mem_nil _ hT

/-- C5, witness: the query appends the unknown capitalized token `Zzzgolem`
to the candidate's title; it is flagged by name and the author score drops
by 10. -/
theorem c5_witness :
    ("Possible Extra/Fake Authors: " ++ String.intercalate ", "
        (uniqueFakeTokens "Quantum Entanglement Basics Zzzgolem"
          (selectBestItem "Quantum Entanglement Basics Zzzgolem" none exItemQEB [])))
      ∈ (checkReference "Quantum Entanglement Basics Zzzgolem" none
          (some [exItemQEB])).issues
    ∧ (checkReference "Quantum Entanglement Basics Zzzgolem" none
        (some [exItemQEB])).authorMatchScore
      = ((freeAuthorPair (normalize "Quantum Entanglement Basics Zzzgolem")
            (selectBestItem "Quantum Entanglement Basics Zzzgolem" none exItemQEB [])
            (freeTitleSim "Quantum Entanglement Basics Zzzgolem"
              (selectBestItem "Quantum Entanglement Basics Zzzgolem" none exItemQEB [])
              (titleScoreFor "Quantum Entanglement Basics Zzzgolem"
                (normalize "Quantum Entanglement Basics Zzzgolem") none
                (selectBestItem "Quantum Entanglement Basics Zzzgolem" none
                  exItemQEB []).resultTitle))).1 : Rat)
        - 10 * (uniqueFakeTokens "Quantum Entanglement Basics Zzzgolem"
            (selectBestItem "Quantum Entanglement Basics Zzzgolem" none exItemQEB [])).length :=
  (checkReference_fake_author_detection "Quantum Entanglement Basics Zzzgolem" exItemQEB []
    (by decide)).1 (by decide) (by decide)

/-! ## Claims C7 and C10 -/
theorem ssPhase_cases (expected : Option ExpectedMetadata) (title : String)
    (ey : Option String) (cr : CheckResult) (ssOpt : Option SemanticScholarResult)
    (r : CheckResult) (h : ssPhase expected title ey cr ssOpt = some r) :
    (∃ ss, ssOpt = some ss ∧ cr.exists_ = false
      ∧ MIN_TITLE_SIMILARITY ≤ calculateSimilarity title ss.title
      ∧ r = ssPromoteResult ss (calculateSimilarity title ss.title))
    ∨ (cr.exists_ = true ∧ r.exists_ = true ∧ r.titleMatchScore = cr.titleMatchScore) := by
  cases ssOpt with
  | none => simp [ssPhase] at h
  | some ss =>
      by_cases hex : cr.exists_
      · right
        simp only [ssPhase, hex, Bool.not_true, Bool.false_eq_true, if_false] at h
        split at h
        · rename_i r' hr'
          split at hr'
          · split at hr'
            · cases hr'
              cases h
              exact ⟨hex, rfl, rfl⟩
            · cases hr'
          · cases hr'
        · split at h
          · split at h
            · cases h
              exact ⟨hex, rfl, rfl⟩
            · cases h
          · cases h
      · left
        have hex' : cr.exists_ = false := by
          cases hcr : cr.exists_
          · rfl
          · exact absurd hcr hex
        simp only [ssPhase, hex', Bool.not_false, if_true, Bool.false_and,
          Bool.false_eq_true, if_false] at h
        split at h
        · rename_i r' hr'
          split at hr'
          · cases hr'
          · rename_i hge
            cases hr'
            cases h
            exact ⟨ss, rfl, hex', not_lt.1 hge, rfl⟩
        · cases h

theorem oaPhase_cases (expected : Option ExpectedMetadata) (title : String)
    (ey : Option String) (cr : CheckResult) (oaOpt : Option OpenAlexResult)
    (r : CheckResult) (h : oaPhase expected title ey cr oaOpt = some r) :
    (∃ oa, oaOpt = some oa ∧ cr.exists_ = false
      ∧ calculateSimilarity title oa.title < MIN_TITLE_SIMILARITY
      ∧ r = oaBelowResult cr (calculateSimilarity title oa.title))
    ∨ (∃ oa, oaOpt = some oa ∧ cr.exists_ = false
      ∧ MIN_TITLE_SIMILARITY ≤ calculateSimilarity title oa.title
      ∧ r = oaPromoteResult oa (calculateSimilarity title oa.title))
    ∨ (cr.exists_ = true ∧ r.exists_ = true ∧ r.titleMatchScore = cr.titleMatchScore) := by
  cases oaOpt with
  | none => simp [oaPhase] at h
  | some oa =>
      by_cases hex : cr.exists_
      · right; right
        simp only [oaPhase, hex, Bool.not_true, Bool.false_eq_true, if_false] at h
        split at h
        · rename_i r' hr'
          split at hr'
          · split at hr'
            · cases hr'
              cases h
              exact ⟨hex, rfl, rfl⟩
            · cases hr'
          · cases hr'
        · split at h
          · split at h
            · cases h
              exact ⟨hex, rfl, rfl⟩
            · cases h
          · cases h
      · have hex' : cr.exists_ = false := by
          cases hcr : cr.exists_
          · rfl
          · exact absurd hcr hex
        simp only [oaPhase, hex', Bool.not_false, if_true] at h
        split at h
        · rename_i r' hr'
          split at hr'
          · rename_i hlt
            cases hr'
            cases h
            exact Or.inl ⟨oa, rfl, hex', hlt, rfl⟩
          · rename_i hge
            cases hr'
            cases h
            exact Or.inr (Or.inl ⟨oa, rfl, hex', not_lt.1 hge, rfl⟩)
        · rename_i hr'
          split at hr' <;> cases hr'

def zeroedNotFound (r : CheckResult) : Prop :=
  r.matchConfidence = 0 ∧ r.authorMatchScore = 0 ∧ r.journalMatchScore = 0
  ∧ r.titleMatchScore < 55
  ∧ r.title = none ∧ r.authors = none ∧ r.year = none ∧ r.journal = none
  ∧ r.url = none ∧ r.doi = none ∧ r.score = none ∧ r.apa = none ∧ r.bibtex = none
  ∧ r.source = ResultSource.notFound

theorem finalizeResult_exists (e : Option ExpectedMetadata) (i : CrossRefItem)
    (m : ModeScores) : (finalizeResult e i m).exists_ = true := rfl

theorem finalizeResult_titleScore (e : Option ExpectedMetadata) (i : CrossRefItem)
    (m : ModeScores) : (finalizeResult e i m).titleMatchScore = (m.titleSim : Rat) := rfl

theorem freeTitleSim_ge (q : String) (item : CrossRefItem) (ts : Nat) (h : 55 ≤ ts) :
    55 ≤ freeTitleSim q item ts := by
  simp only [freeTitleSim]
  split <;> omega

theorem checkReference_exists_cases (query : String) (expected : Option ExpectedMetadata)
    (resp : Option (List CrossRefItem)) :
    ((checkReference query expected resp).exists_ = false
      ∧ zeroedNotFound (checkReference query expected resp))
    ∨ ((checkReference query expected resp).exists_ = true
      ∧ 55 ≤ (checkReference query expected resp).titleMatchScore) := by
  cases resp with
  | none =>
      left
      exact ⟨rfl, rfl, rfl, rfl, show (0 : Rat) < 55 by norm_num, rfl, rfl, rfl, rfl, rfl,
        rfl, rfl, rfl, rfl, rfl⟩
  | some items =>
      cases items with
      | nil =>
          left
          exact ⟨rfl, rfl, rfl, rfl, show (0 : Rat) < 55 by norm_num, rfl, rfl, rfl, rfl, rfl,
            rfl, rfl, rfl, rfl, rfl⟩
      | cons first rest =>
          cases expected with
          | none =>
              simp only [checkReference]
              split
              · rename_i hlt
                left
                refine ⟨rfl, rfl, rfl, rfl, ?_, rfl, rfl, rfl, rfl, rfl, rfl, rfl, rfl, rfl, rfl⟩
                show ((titleScoreFor query (normalize query) none
                  (selectBestItem query none first rest).resultTitle : Nat) : Rat) < 55
                exact_mod_cast hlt
              · rename_i hge
                right
                refine ⟨finalizeResult_exists _ _ _, ?_⟩
                rw [finalizeResult_titleScore]
                have h55 : 55 ≤ titleScoreFor query (normalize query) none
                    (selectBestItem query none first rest).resultTitle := not_lt.1 hge
                have hf := freeTitleSim_ge query (selectBestItem query none first rest)
                  (titleScoreFor query (normalize query) none
                    (selectBestItem query none first rest).resultTitle) h55
                exact_mod_cast hf
          | some e =>
              simp only [checkReference]
              split
              · rename_i hlt
                left
                refine ⟨rfl, rfl, rfl, rfl, ?_, rfl, rfl, rfl, rfl, rfl, rfl, rfl, rfl, rfl, rfl⟩
                show ((titleScoreFor query (normalize query) (some e)
                  (selectBestItem query (some e) first rest).resultTitle : Nat) : Rat) < 55
                exact_mod_cast hlt
              · rename_i hge
                right
                have h55 : 55 ≤ titleScoreFor query (normalize query) (some e)
                    (selectBestItem query (some e) first rest).resultTitle := not_lt.1 hge
                by_cases htr : truthy e.title
                · rw [if_pos htr]
                  refine ⟨finalizeResult_exists _ _ _, ?_⟩
                  rw [finalizeResult_titleScore]
                  exact_mod_cast h55
                · rw [if_neg htr]
                  refine ⟨finalizeResult_exists _ _ _, ?_⟩
                  rw [finalizeResult_titleScore]
                  have hf := freeTitleSim_ge query (selectBestItem query (some e) first rest)
                    (titleScoreFor query (normalize query) (some e)
                      (selectBestItem query (some e) first rest).resultTitle) h55
                  exact_mod_cast hf

theorem checkWithFallback_result_cases (query : String) (expected : Option ExpectedMetadata)
    (env : ProviderEnv) :
    checkWithFallback query expected env = checkReference query expected env.crossref
    ∨ (∃ r, ssPhase expected (jsOrStr (expTitle expected) query) (expYear expected)
          (checkReference query expected env.crossref)
          (searchSemanticScholar (jsOrStr (expTitle expected) query) (expYear expected)
            env.semanticScholar) = some r
        ∧ checkWithFallback query expected env = r)
    ∨ (∃ r, oaPhase expected (jsOrStr (expTitle expected) query) (expYear expected)
          (checkReference query expected env.crossref)
          (searchOpenAlex (jsOrStr (expTitle expected) query) (expYear expected)
            env.openAlex) = some r
        ∧ checkWithFallback query expected env = r)
    ∨ ((checkReference query expected env.crossref).exists_ = false
        ∧ checkWithFallback query expected env = exhaustedResult) := by
  simp only [checkWithFallback, checkWithFallbackT]
  split
  · split
    · rename_i r heq
      exact Or.inr (Or.inl ⟨r, heq, rfl⟩)
    · split
      · rename_i r heq
        exact Or.inr (Or.inr (Or.inl ⟨r, heq, rfl⟩))
      · split
        · rename_i hnex
          refine Or.inr (Or.inr (Or.inr ⟨?_, rfl⟩))
          simpa using hnex
        · exact Or.inl rfl
  · exact Or.inl rfl

/-- C7 (amended): every `CheckResult` with `exists = false` — from
`checkReference` (HTTP failure, zero results, below-threshold title) or
from `checkWithFallback` (all sources exhausted, or OpenAlex also below
threshold) — has `matchConfidence`, `authorMatchScore` and
`journalMatchScore` equal to 0 and carries no bibliographic fields; its
`titleMatchScore` is below the 55 threshold but is not always zero: the
below-threshold return sites record the best title similarity seen
(`belowThresholdResult` keeps the CrossRef similarity, `oaBelowResult` the
maximum of the CrossRef and OpenAlex similarities). -/
theorem notFound_results_shape (query : String) (expected : Option ExpectedMetadata)
    (resp : Option (List CrossRefItem)) (env : ProviderEnv) :
    ((checkReference query expected resp).exists_ = false →
      zeroedNotFound (checkReference query expected resp))
    ∧ ((checkWithFallback query expected env).exists_ = false →
      zeroedNotFound (checkWithFallback query expected env)) := by
  constructor
  · intro h
    rcases checkReference_exists_cases query expected resp with ⟨_, hz⟩ | ⟨he, _⟩
    · exact hz
    · rw [he] at h; cases h
  · intro h
    rcases checkWithFallback_result_cases query expected env with
      hcr | ⟨r, hss, hres⟩ | ⟨r, hoa, hres⟩ | ⟨hex, hres⟩
    · rw [hcr] at h ⊢
      rcases checkReference_exists_cases query expected env.crossref with ⟨_, hz⟩ | ⟨he, _⟩
      · exact hz
      · rw [he] at h; cases h
    · rcases ssPhase_cases _ _ _ _ _ _ hss with ⟨ss, _, _, _, hr⟩ | ⟨_, hrex, _⟩
      · rw [hres, hr] at h
        simp [ssPromoteResult] at h
      · rw [hres, hrex] at h
        cases h
    · rcases oaPhase_cases _ _ _ _ _ _ hoa with
        ⟨oa, _, hcrex, hlt, hr⟩ | ⟨oa, _, _, _, hr⟩ | ⟨_, hrex, _⟩
      · rw [hres, hr]
        have hcr55 : (checkReference query expected env.crossref).titleMatchScore < 55 := by
          rcases checkReference_exists_cases query expected env.crossref with ⟨_, hz⟩ | ⟨he, _⟩
          · exact hz.2.2.2.1
          · rw [he] at hcrex; cases hcrex
        have hlt' : calculateSimilarity (jsOrStr (expTitle expected) query) oa.title < 55 :=
          hlt
        refine ⟨rfl, rfl, rfl, ?_, rfl, rfl, rfl, rfl, rfl, rfl, rfl, rfl, rfl, rfl⟩
        show max (checkReference query expected env.crossref).titleMatchScore
          ((calculateSimilarity (jsOrStr (expTitle expected) query) oa.title : Nat) : Rat) < 55
        have hsimR : ((calculateSimilarity (jsOrStr (expTitle expected) query) oa.title
            : Nat) : Rat) < 55 := by exact_mod_cast hlt'
        exact max_lt hcr55 hsimR
      · rw [hres, hr] at h
        simp [oaPromoteResult] at h
      · rw [hres, hrex] at h
        cases h
    · rw [hres]
      exact ⟨rfl, rfl, rfl, show (0 : Rat) < 55 by norm_num, rfl, rfl, rfl, rfl, rfl, rfl,
        rfl, rfl, rfl, rfl⟩

/-- C10: every `CheckResult` with `exists = true`, whether produced by
`checkReference` or by `checkWithFallback` through any source (CrossRef,
Semantic Scholar promotion, OpenAlex promotion, or a corrected CrossRef
result), has `titleMatchScore ≥ 55`: the acceptance threshold is enforced
on secondary-source promotions before they become the returned match. -/
theorem matched_results_title_threshold (query : String) (expected : Option ExpectedMetadata)
    (resp : Option (List CrossRefItem)) (env : ProviderEnv) :
    ((checkReference query expected resp).exists_ = true →
      55 ≤ (checkReference query expected resp).titleMatchScore)
    ∧ ((checkWithFallback query expected env).exists_ = true →
      55 ≤ (checkWithFallback query expected env).titleMatchScore) := by
  constructor
  · intro h
    rcases checkReference_exists_cases query expected resp with ⟨he, _⟩ | ⟨_, ht⟩
    · rw [he] at h; cases h
    · exact ht
  · intro h
    rcases checkWithFallback_result_cases query expected env with
      hcr | ⟨r, hss, hres⟩ | ⟨r, hoa, hres⟩ | ⟨hex, hres⟩
    · rw [hcr] at h ⊢
      rcases checkReference_exists_cases query expected env.crossref with ⟨he, _⟩ | ⟨_, ht⟩
      · rw [he] at h; cases h
      · exact ht
    · rcases ssPhase_cases _ _ _ _ _ _ hss with ⟨ss, _, _, h55, hr⟩ | ⟨hcrex, _, htms⟩
      · rw [hres, hr]
        have h55' : 55 ≤ calculateSimilarity (jsOrStr (expTitle expected) query) ss.title :=
          h55
        show (55 : Rat) ≤ ((calculateSimilarity (jsOrStr (expTitle expected) query)
          ss.title : Nat) : Rat)
        exact_mod_cast h55'
      · rw [hres, htms]
        rcases checkReference_exists_cases query expected env.crossref with ⟨he, _⟩ | ⟨_, ht⟩
        · rw [he] at hcrex; cases hcrex
        · exact ht
    · rcases oaPhase_cases _ _ _ _ _ _ hoa with
        ⟨oa, _, _, _, hr⟩ | ⟨oa, _, _, h55, hr⟩ | ⟨hcrex, _, htms⟩
      · rw [hres, hr] at h
        simp [oaBelowResult] at h
      · rw [hres, hr]
        have h55' : 55 ≤ calculateSimilarity (jsOrStr (expTitle expected) query) oa.title :=
          h55
        show (55 : Rat) ≤ ((calculateSimilarity (jsOrStr (expTitle expected) query)
          oa.title : Nat) : Rat)
        exact_mod_cast h55'
      · rw [hres, htms]
        rcases checkReference_exists_cases query expected env.crossref with ⟨he, _⟩ | ⟨_, ht⟩
        · rw [he] at hcrex; cases hcrex
        · exact ht
    · rw [hres] at h
      cases h

/-- An environment in which every provider fails. -/
def exEnvAllFail : ProviderEnv :=
  { crossref := none, semanticScholar := FetchOutcome.exn, openAlex := FetchOutcome.exn }

/-- C7, witness: the below-threshold CrossRef result and the all-sources
exhausted fallback result both have the zeroed not-found shape. -/
theorem c7_witness :
    zeroedNotFound (checkReference "Alpha Beta" none (some [exItemQEB]))
    ∧ zeroedNotFound (checkWithFallback "Anything" none exEnvAllFail) :=
  ⟨(notFound_results_shape "Alpha Beta" none (some [exItemQEB]) exEnvAllFail).1 (by decide),
   (notFound_results_shape "Anything" none none exEnvAllFail).2 (by decide)⟩

/-- C10, witness: a matching query yields `titleMatchScore ≥ 55` both from
`checkReference` and through `checkWithFallback`. -/
theorem c10_witness :
    55 ≤ (checkReference "Quantum Entanglement Basics Smith 2021" none
        (some [exItemQEB])).titleMatchScore
    ∧ 55 ≤ (checkWithFallback "Quantum Entanglement Basics Smith 2021" none
        { crossref := some [exItemQEB], semanticScholar := FetchOutcome.exn,
          openAlex := FetchOutcome.exn }).titleMatchScore :=
  ⟨(matched_results_title_threshold "Quantum Entanglement Basics Smith 2021" none
      (some [exItemQEB]) exEnvAllFail).1 (by decide),
   (matched_results_title_threshold "Quantum Entanglement Basics Smith 2021" none none
      { crossref := some [exItemQEB], semanticScholar := FetchOutcome.exn,
        openAlex := FetchOutcome.exn }).2 (by decide)⟩

/-! ## Claim C4 -/

/-- C4: `checkWithFallback` always queries CrossRef first, and consults the
secondary sources exactly when the CrossRef result is not-found, or its
confidence is below 70, or its issues list is nonempty.  When none of these
hold, the CrossRef result is returned unchanged and the query trace is
`[crossRef]` — no secondary search is awaited; otherwise the trace is
`[crossRef, semanticScholar]` or `[crossRef, semanticScholar, openAlex]`:
Semantic Scholar is always consulted before OpenAlex, and OpenAlex only
when no early return fired in the Semantic Scholar block. -/
theorem checkWithFallback_consults_secondaries (query : String) (expected : Option ExpectedMetadata)
    (env : ProviderEnv) :
    ((checkReference query expected env.crossref).exists_ = true
      → 70 ≤ (checkReference query expected env.crossref).matchConfidence
      → (checkReference query expected env.crossref).issues = []
      → checkWithFallbackT query expected env
          = (checkReference query expected env.crossref, [SourceTag.crossRef]))
    ∧ (((checkReference query expected env.crossref).exists_ = false
        ∨ (checkReference query expected env.crossref).matchConfidence < 70
        ∨ (checkReference query expected env.crossref).issues ≠ [])
      → (checkWithFallbackT query expected env).2
            = [SourceTag.crossRef, SourceTag.semanticScholar]
        ∨ (checkWithFallbackT query expected env).2
            = [SourceTag.crossRef, SourceTag.semanticScholar, SourceTag.openAlex]) := by
  constructor
  · intro hex hconf hiss
    simp only [checkWithFallbackT, hex, hiss, Bool.not_true, List.isEmpty_nil, Bool.or_self,
      decide_eq_false (not_lt.2 hconf), Bool.or_false, Bool.false_or, Bool.false_eq_true,
      if_false]
  · intro hcond
    have hc : (!(checkReference query expected env.crossref).exists_
        || decide ((checkReference query expected env.crossref).matchConfidence < 70)
        || !(checkReference query expected env.crossref).issues.isEmpty) = true := by
      rcases hcond with h | h | h
      · simp [h]
      · simp [h]
      · have hne : (checkReference query expected env.crossref).issues.isEmpty = false := by
          cases hl : (checkReference query expected env.crossref).issues with
          | nil => exact absurd hl h
          | cons a l => rfl
        simp [hne]
    simp only [checkWithFallbackT, hc, if_true]
    split
    · exact Or.inl rfl
    · split
      · exact Or.inr rfl
      · split
        · exact Or.inr rfl
        · exact Or.inr rfl

/-- C4, witness: a fully matching CrossRef result short-circuits with trace
`[crossRef]`; a failing CrossRef triggers the secondary consultations. -/
theorem c4_witness :
    checkWithFallbackT "Quantum Entanglement Basics Smith 2021" none
        { crossref := some [exItemQEB], semanticScholar := FetchOutcome.exn,
          openAlex := FetchOutcome.exn }
      = (checkReference "Quantum Entanglement Basics Smith 2021" none (some [exItemQEB]),
         [SourceTag.crossRef])
    ∧ ((checkWithFallbackT "Anything" none exEnvAllFail).2
          = [SourceTag.crossRef, SourceTag.semanticScholar]
        ∨ (checkWithFallbackT "Anything" none exEnvAllFail).2
          = [SourceTag.crossRef, SourceTag.semanticScholar, SourceTag.openAlex]) :=
  ⟨(checkWithFallback_consults_secondaries "Quantum Entanglement Basics Smith 2021" none
      { crossref := some [exItemQEB], semanticScholar := FetchOutcome.exn,
        openAlex := FetchOutcome.exn }).1 (by decide) (by decide) (by decide),
   (checkWithFallback_consults_secondaries "Anything" none exEnvAllFail).2
      (Or.inl (by decide))⟩

/-! ## Claim C8 -/

/-- C8: each adapter search (`searchSemanticScholar`, `searchOpenAlex`)
returns `none` on a thrown error, on every non-success HTTP status
(including 429 rate limiting) and on an empty result list, and returns a
candidate exactly when the provider returned a successful body with at
least one result; the embedding is total, so no exception propagates. -/
theorem adapter_null_on_failure :
    (∀ (t : String) (y : Option String) (fo : FetchOutcome SemanticScholarResponse),
        (searchSemanticScholar t y fo).isSome = true
          ↔ ∃ body, fo = FetchOutcome.ok body ∧ body.data ≠ [])
    ∧ (∀ (t : String) (y : Option String) (fo : FetchOutcome OAResponse),
        (searchOpenAlex t y fo).isSome = true
          ↔ ∃ body, fo = FetchOutcome.ok body ∧ body.results ≠ []) := by
  constructor
  · intro t y fo
    cases fo with
    | exn => simp [searchSemanticScholar]
    | notOk s => simp [searchSemanticScholar]
    | ok body =>
        cases h : body.data with
        | nil => simp [searchSemanticScholar, h]
        | cons p rest =>
            simp only [searchSemanticScholar, h, Option.isSome_some, true_iff]
            exact ⟨body, rfl, by simp [h]⟩
  · intro t y fo
    cases fo with
    | exn => simp [searchOpenAlex]
    | notOk s => simp [searchOpenAlex]
    | ok body =>
        cases h : body.results with
        | nil => simp [searchOpenAlex, h]
        | cons p rest =>
            simp only [searchOpenAlex, h, Option.isSome_some, true_iff]
            exact ⟨body, rfl, by simp [h]⟩

/-- C8, witness: a 429 response and a thrown error both yield `none`. -/
theorem c8_witness :
    ((searchSemanticScholar "A" none (FetchOutcome.notOk 429)).isSome = true
      ↔ ∃ body : SemanticScholarResponse,
          FetchOutcome.notOk 429 = FetchOutcome.ok body ∧ body.data ≠ []) ∧
    ((searchOpenAlex "A" none (FetchOutcome.exn)).isSome = true
      ↔ ∃ body : OAResponse,
          (FetchOutcome.exn : FetchOutcome OAResponse) = FetchOutcome.ok body
          ∧ body.results ≠ []) :=
  ⟨adapter_null_on_failure.1 "A" none (FetchOutcome.notOk 429),
   adapter_null_on_failure.2 "A" none FetchOutcome.exn⟩

/-! ## Claim C9 -/

/-- `String.intercalate.go` distributes over a trailing singleton. -/
theorem intercalateGo_append_singleton (s x : String) (l : List String) :
    ∀ acc, String.intercalate.go acc s (l ++ [x])
      = String.intercalate.go acc s l ++ s ++ x := by
  induction l with
  | nil => intro acc; simp [String.intercalate.go]
  | cons a as ih =>
      intro acc
      simp only [List.cons_append, String.intercalate.go]
      exact ih (acc ++ s ++ a)

/-- `String.intercalate` over `l ++ [x]` appends one more separator and
`x` when `l` is nonempty. -/
theorem intercalate_append_singleton (s x : String) (l : List String) (h : l ≠ []) :
    String.intercalate s (l ++ [x]) = String.intercalate s l ++ s ++ x := by
  cases l with
  | nil => exact absurd rfl h
  | cons a as =>
      simp only [List.cons_append, String.intercalate]
      exact intercalateGo_append_singleton s x as a

/-- In the indexed author-entry loop of the Semantic Scholar / OpenAlex
APA formatters, with at least two authors exactly the last entry receives
the `"& "` prefix. -/
theorem apaIdxEntries_last_amp (t : Nat) (a : String) :
    ∀ (as : List String) (idx : Nat), idx + as.length + 1 = t → 1 < t →
      apaIdxEntries t idx (as ++ [a])
        = as.map apaNameEntry ++ ["& " ++ apaNameEntry a] := by
  intro as
  induction as with
  | nil =>
      intro idx hlen ht
      simp only [List.length_nil, Nat.add_zero] at hlen
      simp only [List.nil_append, apaIdxEntries, List.map_nil]
      rw [if_pos ⟨by omega, ht⟩]
  | cons x xs ih =>
      intro idx hlen ht
      simp only [List.cons_append, apaIdxEntries, List.map_cons, List.length_cons] at *
      rw [if_neg (by omega : ¬(idx = t - 1 ∧ 1 < t)), List.append_eq,
        ih (idx + 1) (by omega) ht]

/-- A two-author Semantic Scholar result. -/
def exSSResult : SemanticScholarResult :=
  { paperId := "p1", title := "Quantum Entanglement Basics",
    authors := ["John Smith", "Alice Doe"], year := some 2021,
    venue := "Nature", externalIdsDOI := some "10.1/x", url := "u" }

/-- A two-author OpenAlex result. -/
def exOAResult : OpenAlexResult :=
  { id := "W1", title := "Quantum Entanglement Basics",
    authors := ["John Smith", "Alice Doe"], year := some 2021,
    journal := "Nature", doi := some "https://doi.org/10.1/x", url := "u" }

/-- A two-author CrossRef item. -/
def exItemTwoAuthors : CrossRefItem :=
  { title := ["Quantum Entanglement Basics"],
    author := [{ family := some "Smith", given := some "John" },
               { family := some "Doe", given := some "Alice" }],
    published := [[2021]], containerTitle := ["Nature"],
    url := some "u", doi := some "10.1/x", score := some 90 }

/-- C9, counterexample: CrossRef's `formatAPA` joins all author entries
with `", "` and never inserts an ampersand, so on a two-author item the
claimed `&` between the last two authors is absent. -/
theorem c9_counterexample :
    2 ≤ exItemTwoAuthors.author.length
    ∧ (formatAPA exItemTwoAuthors)
        = "Smith, J., Doe, A. (2021). Quantum Entanglement Basics. Nature. https://doi.org/10.1/x"
    ∧ (formatAPA exItemTwoAuthors).data.contains '&' = false := by
  refine ⟨by decide, by decide, by decide⟩

/-- C9 (amended): `formatSemanticScholarAPA` and `formatOpenAlexAPA`
produce `Family, I., ..., & Family, I. (Year). Title.` followed by the
optional venue and DOI segments — the last author entry of two or more is
prefixed with `"& "`; CrossRef's `formatAPA`, however, joins its author
entries with `", "` only, with no ampersand. -/
theorem apa_ampersand_joining (paper : SemanticScholarResult) (work : OpenAlexResult)
    (item : CrossRefItem) (as bs : List String) (a b : String) :
    (paper.authors = as ++ [a] → as ≠ [] →
      formatSemanticScholarAPA paper
        = (let authors := String.intercalate ", " (as.map apaNameEntry) ++ ", "
              ++ ("& " ++ apaNameEntry a)
           let base := authors ++ " (" ++ yearOrND paper.year ++ "). " ++ paper.title ++ "."
           let withVenue := if paper.venue.isEmpty then base
              else base ++ " " ++ paper.venue ++ "."
           let doi := match paper.externalIdsDOI with
             | some d => if d.isEmpty then "" else "https://doi.org/" ++ d
             | none => ""
           if doi.isEmpty then withVenue else withVenue ++ " " ++ doi))
    ∧ (work.authors = bs ++ [b] → bs ≠ [] →
      formatOpenAlexAPA work
        = (let authors := String.intercalate ", " (bs.map apaNameEntry) ++ ", "
              ++ ("& " ++ apaNameEntry b)
           let base := authors ++ " (" ++ yearOrND work.year ++ "). " ++ work.title ++ "."
           let withJournal := if work.journal.isEmpty then base
              else base ++ " " ++ work.journal ++ "."
           match work.doi with
           | some d => if d.isEmpty then withJournal else withJournal ++ " " ++ d
           | none => withJournal))
    ∧ formatAPA item
        = (let authors := String.intercalate ", " (item.author.map formatAPAAuthor)
           let base := authors ++ " (" ++ item.yearDisplay ++ "). "
              ++ jsOrStr item.title.head? "Untitled" ++ "."
           let journal := jsStr item.containerTitle.head?
           let withJournal := if journal.isEmpty then base else base ++ " " ++ journal ++ "."
           let doi := if truthy item.doi then "https://doi.org/" ++ jsStr item.doi
              else jsOrStr item.url ""
           if doi.isEmpty then withJournal else withJournal ++ " " ++ doi) := by
  refine ⟨?_, ?_, rfl⟩
  · intro h hne
    have hpos : 0 < as.length := List.length_pos.2 hne
    have hamp := apaIdxEntries_last_amp (as.length + 1) a as 0 (by omega) (by omega)
    have hint := intercalate_append_singleton ", " ("& " ++ apaNameEntry a)
      (as.map apaNameEntry) (by simpa using hne)
    simp only [formatSemanticScholarAPA, h, List.length_append, List.length_cons,
      List.length_nil, Nat.zero_add, hamp, hint]
  · intro h hne
    have hpos : 0 < bs.length := List.length_pos.2 hne
    have hamp := apaIdxEntries_last_amp (bs.length + 1) b bs 0 (by omega) (by omega)
    have hint := intercalate_append_singleton ", " ("& " ++ apaNameEntry b)
      (bs.map apaNameEntry) (by simpa using hne)
    simp only [formatOpenAlexAPA, h, List.length_append, List.length_cons,
      List.length_nil, Nat.zero_add, hamp, hint]

/-- C9, witness: the two secondary formatters on concrete two-author
records place `& ` before the final author. -/
theorem c9_witness :
    formatSemanticScholarAPA exSSResult
      = "Smith, J., & Doe, A. (2021). Quantum Entanglement Basics. Nature. https://doi.org/10.1/x"
    ∧ formatOpenAlexAPA exOAResult
      = "Smith, J., & Doe, A. (2021). Quantum Entanglement Basics. Nature. https://doi.org/10.1/x" := by
  constructor
  · have h := (apa_ampersand_joining exSSResult exOAResult exItemTwoAuthors
        ["John Smith"] ["John Smith"] "Alice Doe" "Alice Doe").1 rfl (by decide)
    rw [h]; rfl
  · have h := (apa_ampersand_joining exSSResult exOAResult exItemTwoAuthors
        ["John Smith"] ["John Smith"] "Alice Doe" "Alice Doe").2.1 rfl (by decide)
    rw [h]; rfl

/-- C7, counterexample: a below-threshold CrossRef result has
`exists = false` yet a nonzero `titleMatchScore` — the claim that all four
scores are zero on every not-found result does not hold as stated. -/
theorem c7_counterexample :
    (checkReference "Alpha Beta" none (some [exItemQEB])).exists_ = false
    ∧ (checkReference "Alpha Beta" none (some [exItemQEB])).titleMatchScore ≠ 0 := by
  refine ⟨by decide, by decide⟩

end RefVal
